import Mathlib

set_option autoImplicit false

/-!
Shallow embedding of the Pipeline Orchestration & Cost-Accounting Engine of
the mermaid-prompt-builder repository, together with proofs of the spec's
claims about it.

Conventions of the embedding:
* TypeScript numbers holding token counts are modelled as `Nat`; USD amounts
  and per-token prices are modelled as `ℚ` (the source performs no rounding
  until display).
* Optional TS fields become `Option`; JavaScript's `x || d` defaulting is
  modelled by explicit falsy tests (`0`, `""` and `undefined` are falsy).
* Effectful primitives (`new Date()`, `Date.now()`, `generateId`, the
  content-hash, JSON serialization, the PRISMA system prompt loaded from
  disk) are supplied by an `Env` record; successive clock/id reads are
  numbered by counters threaded through a state record `St`.
* External collaborators (completion provider, Supabase repositories,
  Google Sheets) are a record `ExternalServices` of pure fallible functions
  (`Except String α` models a thrown exception).  Collaborator calls whose
  results the source swallows entirely (step-status mirroring, per-entry
  Supabase cost inserts, terminal PipelineRun updates) have no observable
  effect on the run and are not modelled; the call sites carry comments.
* The pipeline module contains two revisions of `runPipeline`; the
  Supabase-aware one (the later revision, with the six-step sequence and the
  durable-persistence context) is the one embedded here.
-/

/-- Token usage of one completion call (`TokenUsage`, cost.types). -/
structure TokenUsage where
  inputTokens : Nat
  outputTokens : Nat
  cacheReadTokens : Option Nat := none
  cacheWriteTokens : Option Nat := none
deriving Repr, DecidableEq

/-- Per-model price table entry (`ModelPricing`, cost.types). -/
structure ModelPricing where
  model : String
  inputPer1M : ℚ
  outputPer1M : ℚ
  cacheReadPer1M : Option ℚ := none
  cacheWritePer1M : Option ℚ := none
deriving Repr, DecidableEq

/-- The fallback pricing used for unknown models: the
`claude-opus-4-5-20251101` entry of `MODEL_PRICING`. -/
def opusPricing : ModelPricing :=
  { model := "claude-opus-4-5-20251101"
    inputPer1M := 15
    outputPer1M := 75
    cacheReadPer1M := some 1.5
    cacheWritePer1M := some 18.75 }

/-- The static price table `MODEL_PRICING` (cost.types), USD per 1M tokens.
A `Record<string, ModelPricing>` lookup is a partial map `String → Option _`. -/
def MODEL_PRICING (model : String) : Option ModelPricing :=
  if model = "claude-opus-4-5-20251101" then some opusPricing
  else if model = "claude-sonnet-4-20250514" then
    some { model := "claude-sonnet-4-20250514", inputPer1M := 3, outputPer1M := 15,
           cacheReadPer1M := some 0.3, cacheWritePer1M := some 3.75 }
  else if model = "claude-3-5-sonnet-20241022" then
    some { model := "claude-3-5-sonnet-20241022", inputPer1M := 3, outputPer1M := 15,
           cacheReadPer1M := some 0.3, cacheWritePer1M := some 3.75 }
  else if model = "claude-3-5-haiku-20241022" then
    some { model := "claude-3-5-haiku-20241022", inputPer1M := 0.8, outputPer1M := 4,
           cacheReadPer1M := some 0.08, cacheWritePer1M := some 1 }
  else none

/-- Result of a cost computation (`CostCalculation`, cost.types). -/
structure CostCalculation where
  inputCost : ℚ
  outputCost : ℚ
  cacheCost : Option ℚ
  totalCostUsd : ℚ
deriving Repr, DecidableEq

/-- JS truthiness of an optional numeric field: `undefined` and `0` are falsy. -/
def truthyNat : Option Nat → Bool
  | none => false
  | some n => n != 0

/-- JS truthiness of an optional rational field. -/
def truthyRat : Option ℚ → Bool
  | none => false
  | some q => q != 0

/-- `calculateCostWithPricing` (cost-tracker): linear scaling of the price
table, with the source's `usage.cacheReadTokens && pricing.cacheReadPer1M`
truthiness guards on the cache components. -/
def calculateCostWithPricing (usage : TokenUsage) (pricing : ModelPricing) :
    CostCalculation :=
  let inputCost : ℚ := (usage.inputTokens : ℚ) / 1000000 * pricing.inputPer1M
  let outputCost : ℚ := (usage.outputTokens : ℚ) / 1000000 * pricing.outputPer1M
  let cacheCost : ℚ :=
    (if truthyNat usage.cacheReadTokens && truthyRat pricing.cacheReadPer1M then
      ((usage.cacheReadTokens.getD 0 : Nat) : ℚ) / 1000000 * pricing.cacheReadPer1M.getD 0
    else 0)
    + (if truthyNat usage.cacheWriteTokens && truthyRat pricing.cacheWritePer1M then
      ((usage.cacheWriteTokens.getD 0 : Nat) : ℚ) / 1000000 * pricing.cacheWritePer1M.getD 0
    else 0)
  { inputCost := inputCost
    outputCost := outputCost
    cacheCost := if 0 < cacheCost then some cacheCost else none
    totalCostUsd := inputCost + outputCost + cacheCost }

/-- `calculateCost` (cost-tracker): price-table lookup with fallback to the
opus entry for unknown models (the fallback is logged as a warning and does
not throw). -/
def calculateCost (usage : TokenUsage) (model : String) : CostCalculation :=
  match MODEL_PRICING model with
  | some pricing => calculateCostWithPricing usage pricing
  | none => calculateCostWithPricing usage opusPricing

/-- One billable operation (`CostEntry`, cost.types).  Operation identifiers
are the TS string-literal union values (`"prompt_generation"`, …). -/
structure CostEntry where
  id : String
  timestamp : String
  accountId : String
  assistantId : String
  operation : String
  model : String
  inputTokens : Nat
  outputTokens : Nat
  costUsd : ℚ
  version : Option String := none
  metadata : List (String × String) := []
deriving Repr, DecidableEq

/-- `DEFAULT_MODEL` of the Anthropic client.  The client module is absent
from the sources; the value mirrors the `DEFAULT_MODEL` exported by the
account registry and the model id hard-coded in the generator's metadata. -/
def DEFAULT_MODEL : String := "claude-opus-4-5-20251101"

/-- `createCostEntry` (cost-tracker).  The source draws `id` from
`generateId("cost")` and `timestamp` from `new Date()`; both effects are
hoisted into arguments here. -/
def createCostEntry (id timestamp accountId assistantId operation model : String)
    (usage : TokenUsage) (version : Option String)
    (metadata : List (String × String)) : CostEntry :=
  let cost := calculateCost usage model
  { id := id, timestamp := timestamp, accountId := accountId,
    assistantId := assistantId, operation := operation, model := model,
    inputTokens := usage.inputTokens, outputTokens := usage.outputTokens,
    costUsd := cost.totalCostUsd, version := version, metadata := metadata }

/-- The module-level session accumulator of anthropic/usage.ts
(`sessionUsage` + `sessionCosts`). -/
structure SessionState where
  sessionUsage : TokenUsage
  sessionCosts : List CostEntry
deriving Repr, DecidableEq

/-- `resetSession` (usage.ts): zero totals, empty entry list.  The source
resets the cache counters to the number `0` (not `undefined`). -/
def resetSession : SessionState :=
  { sessionUsage :=
      { inputTokens := 0, outputTokens := 0,
        cacheReadTokens := some 0, cacheWriteTokens := some 0 }
    sessionCosts := [] }

/-- `trackUsage` (usage.ts).  `(x || 0) + (y || 0)` on optional counts is
`getD 0`; after one call the cache fields always hold a number. -/
def trackUsage (s : SessionState) (usage : TokenUsage) : SessionState :=
  { s with sessionUsage :=
      { inputTokens := s.sessionUsage.inputTokens + usage.inputTokens
        outputTokens := s.sessionUsage.outputTokens + usage.outputTokens
        cacheReadTokens :=
          some (s.sessionUsage.cacheReadTokens.getD 0 + usage.cacheReadTokens.getD 0)
        cacheWriteTokens :=
          some (s.sessionUsage.cacheWriteTokens.getD 0 + usage.cacheWriteTokens.getD 0) } }

/-- The raw briefing form fields (`BriefingFormData`, briefing.types). -/
structure BriefingFormData where
  businessName : String
  productService : String
  differentials : String
  salesProcess : String
  tools : String
  idealClient : List String
  mainDesires : List String
  fears : List String
  objections : List String
  journeyMoment : List String
  brandPerception : String
  toneOfVoice : String
  mustSayMessages : String
  internalActions : String
  neverUse : String
  scheduleAdaptation : String
  specialConditions : String
  mandatorySteps : String
  qualificationCriteria : String
  documentsFlow : String
  mainObjective : String
  minimumResult : String
deriving Repr, DecidableEq

/-- A briefing (`Briefing`, briefing.types). -/
structure Briefing where
  id : String
  accountId : String
  assistantId : String
  formData : BriefingFormData
  createdAt : String
deriving Repr, DecidableEq

/-- The effectful primitives of the engine, supplied as pure functions of a
call counter (`Env`). -/
structure Env where
  /-- `new Date().toISOString()`: the ISO string of the n-th clock read. -/
  nowISO : Nat → String
  /-- `Date.now()`: the epoch milliseconds of the n-th clock read. -/
  nowMs : Nat → Nat
  /-- `generateId(p)`: the id produced by the n-th id generation, for prefix p. -/
  freshId : String → Nat → String
  /-- `hashContent` (utils/validation): a pure content hash. -/
  hash : String → String
  /-- `JSON.stringify` of a briefing, modelled abstractly. -/
  stringifyBriefing : Briefing → String
  /-- `getPRISMASystemPrompt()`: the PRISMA system prompt, loaded from disk
  in the source (prisma-system.ts) and treated as an ambient constant here. -/
  prismaSystemPrompt : String

/-- JS `s || d` for strings: the empty string is falsy. -/
def orElseStr (s d : String) : String := if s = "" then d else s

/-- The `formatArray` helper of `formatBriefingAsMarkdown`: keep entries with
non-empty trim, join with `"\n- "`, default to `"Não informado"`. -/
def formatArray (arr : List String) : String :=
  orElseStr (String.intercalate "\n- " (arr.filter (fun s => s.trim ≠ ""))) "Não informado"

/-- `formatBriefingAsMarkdown` (generator.ts): the markdown rendering of a
briefing fed to the completion provider. -/
def formatBriefingAsMarkdown (briefing : Briefing) : String :=
  let fd := briefing.formData
  "# Briefing: " ++ fd.businessName ++ "\n\n## 1. Sobre o Negócio\n- **Nome do Negócio:** "
    ++ fd.businessName ++ "\n- **Produto/Serviço:** " ++ fd.productService
    ++ "\n- **Diferenciais:** " ++ orElseStr fd.differentials "Não informado"
    ++ "\n- **Processo de Venda:** " ++ orElseStr fd.salesProcess "Não informado"
    ++ "\n- **Ferramentas/CRM:** " ++ orElseStr fd.tools "Não informado"
    ++ "\n\n## 2. Sobre o Público-Alvo\n### Cliente Ideal:\n- " ++ formatArray fd.idealClient
    ++ "\n\n### Principais Desejos:\n- " ++ formatArray fd.mainDesires
    ++ "\n\n### Medos/Inseguranças:\n- " ++ formatArray fd.fears
    ++ "\n\n### Objeções Frequentes:\n- " ++ formatArray fd.objections
    ++ "\n\n### Momento da Jornada:\n- " ++ formatArray fd.journeyMoment
    ++ "\n\n## 3. Sobre o Atendimento Ideal\n- **Percepção da Marca:** " ++ fd.brandPerception
    ++ "\n- **Tom de Voz:** " ++ fd.toneOfVoice
    ++ "\n- **Mensagens Obrigatórias:** " ++ orElseStr fd.mustSayMessages "Não informado"
    ++ "\n- **Ações Internas:** " ++ orElseStr fd.internalActions "Não informado"
    ++ "\n- **NUNCA Utilizar:** " ++ orElseStr fd.neverUse "Não informado"
    ++ "\n\n## 4. Sobre Regras e Automação\n- **Adaptação por Horário:** " ++ fd.scheduleAdaptation
    ++ "\n- **Condições Especiais:** " ++ orElseStr fd.specialConditions "Não informado"
    ++ "\n- **Etapas Obrigatórias (antes de transferir):** " ++ fd.mandatorySteps
    ++ "\n- **Critérios de Qualificação:** " ++ orElseStr fd.qualificationCriteria "Não informado"
    ++ "\n- **Fluxo de Documentos:** " ++ orElseStr fd.documentsFlow "Não informado"
    ++ "\n\n## 5. Objetivo Final\n- **Objetivo Principal:** " ++ fd.mainObjective
    ++ "\n- **Resultado Mínimo Esperado:** " ++ orElseStr fd.minimumResult "Não informado"
    ++ "\n"

/-- Mutable run state: the clock/id call counters and the session ledger. -/
structure St where
  tick : Nat
  ids : Nat
  session : SessionState
deriving Repr, DecidableEq

/-- One clock read (`new Date().toISOString()`). -/
def stNow (env : Env) (st : St) : String × St :=
  (env.nowISO st.tick, { st with tick := st.tick + 1 })

/-- One clock read (`Date.now()`). -/
def stNowMs (env : Env) (st : St) : Nat × St :=
  (env.nowMs st.tick, { st with tick := st.tick + 1 })

/-- One id generation (`generateId(p)`). -/
def stFreshId (env : Env) (p : String) (st : St) : String × St :=
  (env.freshId p st.ids, { st with ids := st.ids + 1 })

/-- JS `o || d` for an optional string (both `undefined` and `""` are falsy). -/
def jsOrStr (o : Option String) (d : String) : String :=
  match o with
  | none => d
  | some s => if s = "" then d else s

/-- JS `o || d` for an optional number (both `undefined` and `0` are falsy). -/
def jsOrNat (o : Option Nat) (d : Nat) : Nat :=
  match o with
  | none => d
  | some n => if n = 0 then d else n

/-- `logCost` (usage.ts): build a cost entry via `createCostEntry`, append it
to the session list and update the session totals. -/
def logCost (env : Env) (accountId assistantId operation : String)
    (usage : TokenUsage) (model : Option String) (version : Option String)
    (metadata : List (String × String)) (st : St) : CostEntry × St :=
  let (id, st) := stFreshId env "cost" st
  let (timestamp, st) := stNow env st
  let entry := createCostEntry id timestamp accountId assistantId operation
    (jsOrStr model DEFAULT_MODEL) usage version metadata
  (entry,
    { st with session :=
        { sessionUsage := (trackUsage st.session usage).sessionUsage
          sessionCosts := st.session.sessionCosts ++ [entry] } })

/-- The external text-completion provider: the three wrappers of the
Anthropic messages service, each one `messages.create` call returning
content text and usage, or throwing (`Except.error`). -/
structure CompletionProvider where
  /-- `generatePromptFromBriefing(briefingContent, prismaSystemPrompt)`. -/
  generatePromptFromBriefing : String → String → Except String (String × TokenUsage)
  /-- `analyzePrompt(promptContent, briefingContent)`. -/
  analyzePrompt : String → String → Except String (String × TokenUsage)
  /-- `improvePrompt(promptContent, analysisFeedback, briefingContent, prismaSystemPrompt)`. -/
  improvePrompt : String → String → String → String → Except String (String × TokenUsage)

/-- A provider built from total functions: every call succeeds. -/
def totalProvider (f : String → String → String × TokenUsage)
    (g : String → String → String × TokenUsage)
    (h : String → String → String → String → String × TokenUsage) :
    CompletionProvider :=
  { generatePromptFromBriefing := fun a b => .ok (f a b)
    analyzePrompt := fun a b => .ok (g a b)
    improvePrompt := fun a b c d => .ok (h a b c d) }

/-- One analysis-and-improvement round record (`SimplePromptIteration`,
prompt.types); `analysis` is its nested `{feedback, timestamp}` object. -/
structure AnalysisNote where
  feedback : String
  timestamp : String
deriving Repr, DecidableEq

structure SimplePromptIteration where
  iterationNumber : Nat
  analysis : AnalysisNote
  changes : String
  promptSnapshot : String
  timestamp : String
deriving Repr, DecidableEq

/-- The generator's output (`GeneratedPrompt`, prompt.types), restricted to
the fields `generatePromptWithIteration` sets and `runPipeline` reads.  The
`metadata` record field is flattened into its three entries.  The detailed
`iterations?: PromptIteration[]` list and `finalAnalysis?.qualityScore` are
never produced by the generator; `runPipeline` reads only their
length/score, so their entries are modelled opaquely. -/
structure GeneratedPrompt where
  id : String
  accountId : String
  assistantId : String
  content : String
  version : String
  createdAt : String
  metadataBriefingId : String
  metadataIterations : Nat
  metadataModel : String
  simpleIterations : List SimplePromptIteration
  iterations : Option (List Unit) := none
  finalAnalysisQualityScore : Option ℚ := none
deriving Repr, DecidableEq

/-- `generateInitialPrompt` (generator.ts): one `generatePromptFromBriefing`
call, then `logCost` with operation `prompt_generation`. -/
def generateInitialPrompt (env : Env) (provider : CompletionProvider)
    (briefing : Briefing) (accountId : String) (st : St) :
    Except String (String × TokenUsage) × St :=
  let briefingContent := formatBriefingAsMarkdown briefing
  match provider.generatePromptFromBriefing briefingContent env.prismaSystemPrompt with
  | .error e => (.error e, st)
  | .ok (content, usage) =>
    let (_, st) := logCost env accountId briefing.assistantId "prompt_generation"
      usage none none [("phase", "initial")] st
    (.ok (content, usage), st)

/-- `analyzeGeneratedPrompt` (generator.ts): one `analyzePrompt` call, then
`logCost` with operation `prompt_analysis`. -/
def analyzeGeneratedPrompt (env : Env) (provider : CompletionProvider)
    (promptContent : String) (briefing : Briefing) (accountId : String) (st : St) :
    Except String (String × TokenUsage) × St :=
  let briefingContent := formatBriefingAsMarkdown briefing
  match provider.analyzePrompt promptContent briefingContent with
  | .error e => (.error e, st)
  | .ok (analysis, usage) =>
    let (_, st) := logCost env accountId briefing.assistantId "prompt_analysis"
      usage none none [("phase", "analysis")] st
    (.ok (analysis, usage), st)

/-- `improveGeneratedPrompt` (generator.ts): one `improvePrompt` call, then
`logCost` with operation `prompt_improvement`. -/
def improveGeneratedPrompt (env : Env) (provider : CompletionProvider)
    (promptContent analysisFeedback : String) (briefing : Briefing)
    (accountId : String) (iteration : Nat) (st : St) :
    Except String (String × TokenUsage) × St :=
  let briefingContent := formatBriefingAsMarkdown briefing
  match provider.improvePrompt promptContent analysisFeedback briefingContent
      env.prismaSystemPrompt with
  | .error e => (.error e, st)
  | .ok (content, usage) =>
    let (_, st) := logCost env accountId briefing.assistantId "prompt_improvement"
      usage none none [("phase", "improvement"), ("iteration", toString iteration)] st
    (.ok (content, usage), st)

/-- The `for (let i = 0; i < maxIterations; i++)` body of
`generatePromptWithIteration`: `n` rounds remain and `i` rounds are done.
Each round analyzes, improves, and appends an iteration record. -/
def iterateRounds (env : Env) (provider : CompletionProvider) (briefing : Briefing)
    (accountId : String) :
    Nat → Nat → String → TokenUsage → List SimplePromptIteration → St →
    Except String (String × TokenUsage × List SimplePromptIteration) × St
  | 0, _, currentPrompt, totalUsage, iterations, st =>
    (.ok (currentPrompt, totalUsage, iterations), st)
  | n + 1, i, currentPrompt, totalUsage, iterations, st =>
    match analyzeGeneratedPrompt env provider currentPrompt briefing accountId st with
    | (.error e, st) => (.error e, st)
    | (.ok (analysis, analysisUsage), st) =>
      let totalUsage :=
        { totalUsage with
          inputTokens := totalUsage.inputTokens + analysisUsage.inputTokens
          outputTokens := totalUsage.outputTokens + analysisUsage.outputTokens }
      match improveGeneratedPrompt env provider currentPrompt analysis briefing
          accountId (i + 1) st with
      | (.error e, st) => (.error e, st)
      | (.ok (improvedPrompt, improvementUsage), st) =>
        let totalUsage :=
          { totalUsage with
            inputTokens := totalUsage.inputTokens + improvementUsage.inputTokens
            outputTokens := totalUsage.outputTokens + improvementUsage.outputTokens }
        let (analysisTs, st) := stNow env st
        let (recordTs, st) := stNow env st
        let record : SimplePromptIteration :=
          { iterationNumber := i + 1
            analysis := { feedback := analysis, timestamp := analysisTs }
            changes := "Iteration " ++ toString (i + 1) ++ " improvements applied"
            promptSnapshot := improvedPrompt
            timestamp := recordTs }
        iterateRounds env provider briefing accountId n (i + 1) improvedPrompt
          totalUsage (iterations ++ [record]) st

/-- `generatePromptWithIteration` (generator.ts).  Note the source's
`params.maxIterations || 1`: `0` is falsy in JS, so a caller-supplied `0`
falls back to the default of one round. -/
def generatePromptWithIteration (env : Env) (provider : CompletionProvider)
    (briefing : Briefing) (accountId : String) (maxIterationsParam : Option Nat)
    (st : St) : Except String GeneratedPrompt × St :=
  let maxIterations := jsOrNat maxIterationsParam 1
  match generateInitialPrompt env provider briefing accountId st with
  | (.error e, st) => (.error e, st)
  | (.ok (initialPrompt, initialUsage), st) =>
    let totalUsage : TokenUsage :=
      { inputTokens := 0 + initialUsage.inputTokens
        outputTokens := 0 + initialUsage.outputTokens }
    match iterateRounds env provider briefing accountId maxIterations 0
        initialPrompt totalUsage [] st with
    | (.error e, st) => (.error e, st)
    | (.ok (currentPrompt, _, iterations), st) =>
      let (id, st) := stFreshId env "prompt" st
      let (createdAt, st) := stNow env st
      (.ok
        { id := id
          accountId := accountId
          assistantId := briefing.assistantId
          content := currentPrompt
          version := "draft"
          createdAt := createdAt
          metadataBriefingId := briefing.id
          metadataIterations := maxIterations
          metadataModel := "claude-opus-4-5-20251101"
          simpleIterations := iterations },
       st)

/-- The data produced by one analyze-and-improve round of `iterateRounds`
under a provider built from total functions `g` (analyze) and `h` (improve):
the improved prompt, the updated running usage, the iteration record, and
the state after the round.  Mirrors the loop body exactly. -/
def roundData (env : Env)
    (g : String → String → String × TokenUsage)
    (h : String → String → String → String → String × TokenUsage)
    (briefing : Briefing) (accountId : String) (cp : String) (i : Nat)
    (tu : TokenUsage) (st : St) :
    String × TokenUsage × SimplePromptIteration × St :=
  let bc := formatBriefingAsMarkdown briefing
  let pa := g cp bc
  let st1 := (logCost env accountId briefing.assistantId "prompt_analysis" pa.2
    none none [("phase", "analysis")] st).2
  let tu1 : TokenUsage :=
    { tu with inputTokens := tu.inputTokens + pa.2.inputTokens
              outputTokens := tu.outputTokens + pa.2.outputTokens }
  let pb := h cp pa.1 bc env.prismaSystemPrompt
  let st2 := (logCost env accountId briefing.assistantId "prompt_improvement" pb.2
    none none [("phase", "improvement"), ("iteration", toString (i + 1))] st1).2
  let tu2 : TokenUsage :=
    { tu1 with inputTokens := tu1.inputTokens + pb.2.inputTokens
               outputTokens := tu1.outputTokens + pb.2.outputTokens }
  let ts1 := (stNow env st2).1
  let st3 := (stNow env st2).2
  let ts2 := (stNow env st3).1
  let st4 := (stNow env st3).2
  (pb.1, tu2,
   { iterationNumber := i + 1
     analysis := { feedback := pa.1, timestamp := ts1 }
     changes := "Iteration " ++ toString (i + 1) ++ " improvements applied"
     promptSnapshot := pb.1
     timestamp := ts2 },
   st4)

/-- JS `s.replace(pat, "")` with a string pattern: remove the FIRST
occurrence of `pat` (used by `getNextVersion` to strip the `"v"`). -/
def replaceFirstAux (pat : List Char) : List Char → List Char
  | [] => []
  | c :: rest =>
    if pat.isPrefixOf (c :: rest) then (c :: rest).drop pat.length
    else c :: replaceFirstAux pat rest

def jsReplaceFirst (s pat : String) : String :=
  String.mk (replaceFirstAux pat.toList s.toList)

/-- One step of the base-10 digit accumulation of `parseInt`. -/
def digitStep (a : Nat) (c : Char) : Nat := a * 10 + (c.toNat - 48)

/-- JS `parseInt(s, 10)`: skip leading spaces, read an optional sign, then
the longest digit prefix; `NaN` (here `none`) when no digits follow. -/
def parseIntJS (s : String) : Option Int :=
  let chars := s.toList.dropWhile (fun c => c = ' ')
  let sign : Int := if chars.head? = some '-' then -1 else 1
  let rest :=
    if chars.head? = some '-' ∨ chars.head? = some '+' then chars.tail else chars
  let digits := rest.takeWhile Char.isDigit
  if digits.isEmpty then none
  else some (sign * ((digits.foldl digitStep 0 : Nat) : Int))

/-- The parsed version numbers of `getNextVersion`:
`existingVersions.map(v => parseInt(v.replace("v",""), 10)).filter(n => !isNaN(n))`. -/
def versionNumbersOf (existingVersions : List String) : List Int :=
  (existingVersions.map (fun v => parseIntJS (jsReplaceFirst v "v"))).filterMap id

/-- `getNextVersion` (version-tracker.ts): `"v1"` with no prior versions,
otherwise `"v" + (Math.max(...versionNumbers, 0) + 1)`. -/
def getNextVersion (existingVersions : List String) : String :=
  if existingVersions.length = 0 then "v1"
  else
    let maxVersion := (versionNumbersOf existingVersions).foldl max 0
    "v" ++ toString (maxVersion + 1)

/-- One Version History sheet row (`VersionSheetRow`, cost.types). -/
structure VersionSheetRow where
  timestamp : String
  account_id : String
  assistant_id : String
  version : String
  briefing_hash : String
  prompt_hash : String
  file_path : String
  status : String
deriving Repr, DecidableEq

/-- `createVersionEntry` (version-tracker.ts); the `new Date()` timestamp
and the content hash are environment-supplied. -/
def createVersionEntry (timestamp : String) (hash : String → String)
    (accountId assistantId version briefingContent promptContent filePath
      status : String) : VersionSheetRow :=
  { timestamp := timestamp
    account_id := accountId
    assistant_id := assistantId
    version := version
    briefing_hash := hash briefingContent
    prompt_hash := hash promptContent
    file_path := filePath
    status := status }

/-- `getNextVersionNumber` (supabase repositories, pipeline-runs.ts): prefer
the `get_next_version_number` RPC; on RPC error fall back to
`(latest?.version_number || 0) + 1` over the latest stored version, itself a
fallible query.  Both external reads are arguments here. -/
def getNextVersionNumberFallback (rpc : Except String Nat)
    (latestQuery : Except String (Option Nat)) : Except String Nat :=
  match rpc with
  | .ok d => .ok d
  | .error _ =>
    match latestQuery with
    | .error e => .error e
    | .ok latest => .ok (latest.getD 0 + 1)

/-- The packaged artifact (`InjectionFile`, prompt.types), restricted to the
fields the pipeline reads. -/
structure InjectionFile where
  accountId : String
  assistantId : String
  version : String
  promptContent : Option String := none
  filePath : Option String := none
deriving Repr, DecidableEq

/-- Modelled from the spec: `createInjectionFromPrompt` lives in
prompt-builder/injection.ts, which is absent from the sources; §6 of the
spec specifies it as an opaque pure packaging function
`package(generatedPrompt, version) → InjectionArtifact`.  It is modelled as
a total function carrying the prompt content into the artifact. -/
def createInjectionFromPrompt (p : GeneratedPrompt) (version : String) :
    InjectionFile :=
  { accountId := p.accountId
    assistantId := p.assistantId
    version := version
    promptContent := some p.content
    filePath := none }

/-- An account registry configuration (`AccountConfig`, account.types),
restricted to identifying fields: `runPipeline` only null-checks it. -/
structure AccountConfig where
  id : String
  name : String
  assistants : List String
  createdAt : String
deriving Repr, DecidableEq

/-- Result of `validateApiKeyConfigured` (accounts registry). -/
structure KeyValidation where
  valid : Bool
  error : Option String := none
deriving Repr, DecidableEq

/-- Supabase rows, restricted to the fields the pipeline reads back. -/
structure SupaAccount where
  id : String
deriving Repr, DecidableEq

structure SupaAssistant where
  id : String
deriving Repr, DecidableEq

structure SupaPipelineRun where
  id : String
deriving Repr, DecidableEq

structure SupaPipelineStep where
  id : String
  step_name : String
  step_order : Nat
  status : String
deriving Repr, DecidableEq

/-- Insert payload of `createPipelineRun`.  The source passes
`JSON.parse(JSON.stringify(payload.briefing))` as `briefing_data`; the JSON
round trip is the identity on plain data. -/
structure PipelineRunInsert where
  account_id : String
  assistant_id : String
  pipeline_id : String
  briefing_id : String
  status : String
  briefing_data : Briefing
deriving Repr, DecidableEq

/-- Insert payload of `createPipelineSteps`. -/
structure PipelineStepInsert where
  pipeline_run_id : String
  step_name : String
  step_order : Nat
  status : String
deriving Repr, DecidableEq

/-- Insert payload of `createPromptVersion`. -/
structure PromptVersionInsert where
  pipeline_run_id : String
  account_id : String
  assistant_id : String
  version : String
  version_number : Nat
  prompt_content : String
  prompt_hash : String
  injection_content : String
  injection_file_path : Option String
  briefing_hash : String
  total_iterations : Nat
  final_score : Option ℚ
  status : String
deriving Repr, DecidableEq

/-- Payload of the Google Sheets `updateSummary` call. -/
structure SummaryUpdate where
  totalCost : ℚ
  totalInputTokens : Nat
  totalOutputTokens : Nat
  totalOperations : Nat
  lastUpdated : String
deriving Repr, DecidableEq

/-- The external collaborators of `runPipeline` (§6 of the spec), as pure
fallible functions.  Collaborator calls whose results the source swallows
entirely — `startPipelineStep` / `completePipelineStep` / `failPipelineStep`
(step mirroring), `createCostEntry` per-entry inserts inside
`saveCostsToSupabase`, and the terminal `completePipelineRun` /
`failPipelineRun` updates — have no observable effect on the run's result
and are omitted here; their call sites carry comments. -/
structure ExternalServices where
  provider : CompletionProvider
  loadAccountConfig : String → Except String (Option AccountConfig)
  validateApiKeyConfigured : KeyValidation
  getOrCreateAccount : String → String → Except String SupaAccount
  getOrCreateAssistant : String → String → String → Except String SupaAssistant
  createPipelineRun : PipelineRunInsert → Except String SupaPipelineRun
  createPipelineSteps : List PipelineStepInsert → Except String (List SupaPipelineStep)
  getNextVersionNumber : String → Except String Nat
  createPromptVersion : PromptVersionInsert → Except String Unit
  findOrCreateFolder : String → Except String String
  findCostSpreadsheet : String → String → Except String (Option String)
  createCostSpreadsheet : String → String → Except String String
  appendCostEntries : String → List CostEntry → Except String Unit
  appendVersionEntries : String → List VersionSheetRow → Except String Unit
  updateSummary : String → SummaryUpdate → Except String Unit

/-- The Supabase context of a run (`SupabaseContext`). -/
structure SupabaseContext where
  account : SupaAccount
  assistant : SupaAssistant
  pipelineRun : SupaPipelineRun
  stepRecords : List SupaPipelineStep

/-- Pipeline configuration (`PipelineConfig`, Supabase-aware variant). -/
structure PipelineConfig where
  maxIterations : Nat
  enableCostTracking : Bool
  enableSupabase : Bool
  googleSpreadsheetName : String
  googleFolderName : String
deriving Repr, DecidableEq

/-- A caller-supplied `Partial<PipelineConfig>`. -/
structure PartialPipelineConfig where
  maxIterations : Option Nat := none
  enableCostTracking : Option Bool := none
  enableSupabase : Option Bool := none
  googleSpreadsheetName : Option String := none
  googleFolderName : Option String := none
deriving Repr, DecidableEq

def DEFAULT_CONFIG : PipelineConfig :=
  { maxIterations := 1
    enableCostTracking := true
    enableSupabase := true
    googleSpreadsheetName := "Mermaid Prompt Builder - Costs"
    googleFolderName := "Mermaid Prompt Builder" }

/-- The spread `{ ...DEFAULT_CONFIG, ...config }`. -/
def mergeConfig (d : PipelineConfig) (p : PartialPipelineConfig) : PipelineConfig :=
  { maxIterations := p.maxIterations.getD d.maxIterations
    enableCostTracking := p.enableCostTracking.getD d.enableCostTracking
    enableSupabase := p.enableSupabase.getD d.enableSupabase
    googleSpreadsheetName := p.googleSpreadsheetName.getD d.googleSpreadsheetName
    googleFolderName := p.googleFolderName.getD d.googleFolderName }

/-- The pipeline's own step log entry (`PipelineStep`, api.types). -/
structure PipelineStep where
  name : String
  status : String
  timestamp : String
  error : Option String := none
deriving Repr, DecidableEq

/-- The pipeline result (`PipelineResult`, api.types). -/
structure PipelineResult where
  id : String
  status : String
  briefingId : String
  accountId : String
  assistantId : String
  generatedPrompt : Option GeneratedPrompt := none
  injectionFile : Option InjectionFile := none
  costEntries : List CostEntry
  totalDuration : Nat
  steps : List PipelineStep
  error : Option String := none
  completedAt : String
deriving Repr, DecidableEq

/-- The pipeline briefing input (`PipelineBriefingInput`, briefing.types). -/
structure PipelineBriefingInput where
  briefing : Briefing
  accountId : String
  assistantId : String
  timestamp : String
deriving Repr, DecidableEq

/-- The `logStep` closure of `runPipeline`: append one entry to the local
step log.  The source also mirrors the transition to the durable
PipelineStep row when the Supabase context exists (`startPipelineStep` /
`completePipelineStep` / `failPipelineStep`), catching and logging any
mirroring failure; the mirror writes have no observable effect on the run
and are not modelled. -/
def logStep (env : Env) (name status : String) (error : Option String)
    (steps : List PipelineStep) (st : St) : List PipelineStep × St :=
  let (ts, st) := stNow env st
  (steps ++ [{ name := name, status := status, timestamp := ts, error := error }], st)

/-- The fixed ordered step list created at run start. -/
def stepDefinitions : List (String × Nat) :=
  [("Load Account Config", 1), ("Generate Prompt", 2), ("Determine Version", 3),
   ("Create Injection File", 4), ("Save Prompt Version", 5), ("Log Costs", 6)]

/-- `initializeSupabaseContext`: get-or-create Account and Assistant, create
the PipelineRun, bulk-create the six pending PipelineSteps. -/
def initializeSupabaseContext (ext : ExternalServices) (payload : PipelineBriefingInput)
    (pipelineId briefingId : String) : Except String SupabaseContext :=
  match ext.getOrCreateAccount payload.accountId payload.accountId with
  | .error e => .error e
  | .ok account =>
  match ext.getOrCreateAssistant account.id payload.briefing.assistantId
      payload.briefing.assistantId with
  | .error e => .error e
  | .ok assistant =>
  match ext.createPipelineRun
      { account_id := account.id, assistant_id := assistant.id,
        pipeline_id := pipelineId, briefing_id := briefingId,
        status := "running", briefing_data := payload.briefing } with
  | .error e => .error e
  | .ok pipelineRun =>
  match ext.createPipelineSteps (stepDefinitions.map (fun d =>
      { pipeline_run_id := pipelineRun.id, step_name := d.1,
        step_order := d.2, status := "pending" })) with
  | .error e => .error e
  | .ok createdSteps =>
    .ok { account := account, assistant := assistant,
          pipelineRun := pipelineRun, stepRecords := createdSteps }

/-- JS `o || null` on an optional string (`""` is falsy). -/
def jsOrNullStr (o : Option String) : Option String :=
  match o with
  | none => none
  | some s => if s = "" then none else some s

/-- JS `o || null` on an optional rational (`0` is falsy). -/
def jsOrNullRat (o : Option ℚ) : Option ℚ :=
  match o with
  | none => none
  | some q => if q = 0 then none else some q

/-- The Determine Version step body of `runPipeline`: prefer the durable
`getNextVersionNumber` read when a Supabase context exists, falling back to
`("v1", 1)` (with a logged warning) when it throws or when no durable
persistence is available. -/
def determineVersion (ext : ExternalServices) (ctx : Option SupabaseContext)
    (enableSupabase : Bool) : String × Nat :=
  match ctx with
  | some c =>
    if enableSupabase then
      match ext.getNextVersionNumber c.assistant.id with
      | .ok n => ("v" ++ toString n, n)
      | .error _ => ("v1", 1)
    else ("v1", 1)
  | none => ("v1", 1)

/-- `logCostsToSheets`: folder and spreadsheet lookup/creation, cost rows,
version-history row, summary rewrite.  Returns the thrown error, if any,
together with the state as of the failure point. -/
def logCostsToSheets (env : Env) (ext : ExternalServices) (accountId assistantId : String)
    (config : PipelineConfig) (version : String) (briefing : Briefing)
    (promptContent : String) (st : St) : Except String Unit × St :=
  match ext.findOrCreateFolder config.googleFolderName with
  | .error e => (.error e, st)
  | .ok folderId =>
  match ext.findCostSpreadsheet config.googleSpreadsheetName folderId with
  | .error e => (.error e, st)
  | .ok found =>
  match (match found with
    | some sid => Except.ok sid
    | none => ext.createCostSpreadsheet config.googleSpreadsheetName folderId) with
  | .error e => (.error e, st)
  | .ok spreadsheetId =>
  let costs := st.session.sessionCosts
  match (if 0 < costs.length then ext.appendCostEntries spreadsheetId costs
    else Except.ok ()) with
  | .error e => (.error e, st)
  | .ok _ =>
  let (ts, st) := stNow env st
  let versionEntry := createVersionEntry ts env.hash accountId assistantId version
    (env.stringifyBriefing briefing) promptContent
    ("lib/accounts/" ++ accountId ++ "/assistants/" ++ assistantId ++ "/"
      ++ version ++ "/injection.ts") "final"
  match ext.appendVersionEntries spreadsheetId [versionEntry] with
  | .error e => (.error e, st)
  | .ok _ =>
  let totalCost : ℚ := costs.foldl (fun sum c => sum + c.costUsd) 0
  let totalInput : Nat := costs.foldl (fun sum c => sum + c.inputTokens) 0
  let totalOutput : Nat := costs.foldl (fun sum c => sum + c.outputTokens) 0
  let (lastUpdated, st) := stNow env st
  match ext.updateSummary spreadsheetId
      { totalCost := totalCost, totalInputTokens := totalInput,
        totalOutputTokens := totalOutput, totalOperations := costs.length,
        lastUpdated := lastUpdated } with
  | .error e => (.error e, st)
  | .ok _ => (.ok (), st)

/-- `createFailedResult`: assemble the failure result, duration computed
from `startTime` when truthy.  The source also marks the durable
PipelineRun failed (`failPipelineRun`) when a context exists, its own
failure caught and logged; that write has no observable effect on the
result and is not modelled. -/
def createFailedResult (env : Env) (payload : PipelineBriefingInput)
    (pipelineId : String) (steps : List PipelineStep) (error : String)
    (startTime : Option Nat) (st : St) : PipelineResult × St :=
  let (durationMs, st) :=
    match startTime with
    | some s =>
      if s = 0 then (0, st)
      else
        let p := stNowMs env st
        (p.1 - s, p.2)
    | none => (0, st)
  let (briefingId, st) :=
    if payload.briefing.id = "" then stFreshId env "briefing" st
    else (payload.briefing.id, st)
  let (completedAt, st) := stNow env st
  ({ id := pipelineId, status := "failed", briefingId := briefingId,
     accountId := payload.accountId,
     assistantId := payload.briefing.assistantId,
     costEntries := st.session.sessionCosts, totalDuration := durationMs,
     steps := steps, error := some error, completedAt := completedAt }, st)

/-- The body of `runPipeline` after the Supabase context has been
established (or not): the sequenced named steps with their fatal/non-fatal
error handling. -/
def runPipelineWithCtx (env : Env) (ext : ExternalServices) (payload : PipelineBriefingInput)
    (cfg : PipelineConfig) (ctx : Option SupabaseContext)
    (pipelineId briefingId : String) (startTime : Nat) (st : St) :
    PipelineResult × St :=
  -- Step 1: Load account configuration
  let (steps, st) := logStep env "Load Account Config" "running" none [] st
  match ext.loadAccountConfig payload.accountId with
  | .error e => createFailedResult env payload pipelineId steps e (some startTime) st
  | .ok none =>
    let (steps, st) := logStep env "Load Account Config" "failed"
      (some "Account not found") steps st
    createFailedResult env payload pipelineId steps "Account not found"
      (some startTime) st
  | .ok (some _) =>
  let keyValidation := ext.validateApiKeyConfigured
  if keyValidation.valid then
    let (steps, st) := logStep env "Load Account Config" "completed" none steps st
    -- Step 2: Generate prompt with iterations
    let (steps, st) := logStep env "Generate Prompt" "running" none steps st
    match generatePromptWithIteration env ext.provider payload.briefing
        payload.accountId (some cfg.maxIterations) st with
    | (.error e, st) => createFailedResult env payload pipelineId steps e (some startTime) st
    | (.ok generatedPrompt, st) =>
      let (steps, st) := logStep env "Generate Prompt" "completed" none steps st
      -- source: saveCostsToSupabase(context, "prompt_generation") when the
      -- context exists; every per-entry insert failure is caught and
      -- logged, so the call has no observable effect and is not modelled.
      -- Step 3: Determine version
      let (steps, st) := logStep env "Determine Version" "running" none steps st
      let vp := determineVersion ext ctx cfg.enableSupabase
      let (steps, st) := logStep env "Determine Version" "completed" none steps st
      -- Step 4: Create injection file
      let (steps, st) := logStep env "Create Injection File" "running" none steps st
      let injectionFile := createInjectionFromPrompt generatedPrompt vp.1
      let (steps, st) := logStep env "Create Injection File" "completed" none steps st
      -- Step 5: Save prompt version to Supabase (when a context exists)
      let (steps, st) :=
        match ctx with
        | some c =>
          if cfg.enableSupabase then
            let (steps, st) := logStep env "Save Prompt Version" "running" none steps st
            match ext.createPromptVersion
                { pipeline_run_id := c.pipelineRun.id
                  account_id := c.account.id
                  assistant_id := c.assistant.id
                  version := vp.1
                  version_number := vp.2
                  prompt_content := generatedPrompt.content
                  prompt_hash := env.hash generatedPrompt.content
                  injection_content :=
                    jsOrStr injectionFile.promptContent generatedPrompt.content
                  injection_file_path := jsOrNullStr injectionFile.filePath
                  briefing_hash := env.hash (env.stringifyBriefing payload.briefing)
                  total_iterations := jsOrNat (generatedPrompt.iterations.map List.length) 1
                  final_score := jsOrNullRat generatedPrompt.finalAnalysisQualityScore
                  status := "final" } with
            | .ok _ => logStep env "Save Prompt Version" "completed" none steps st
            | .error _ => logStep env "Save Prompt Version" "failed"
                (some "Failed to save to Supabase (non-fatal)") steps st
          else (steps, st)
        | none => (steps, st)
      -- Step 6: Log costs to Google Sheets (if enabled)
      let (steps, st) :=
        if cfg.enableCostTracking then
          let (steps, st) := logStep env "Log Costs" "running" none steps st
          let r := logCostsToSheets env ext payload.accountId
            payload.briefing.assistantId cfg vp.1 payload.briefing
            generatedPrompt.content st
          match r.1 with
          | .ok _ => logStep env "Log Costs" "completed" none steps r.2
          | .error _ => logStep env "Log Costs" "failed"
              (some "Failed to log to Google Sheets (non-fatal)") steps r.2
        else (steps, st)
      let (endTime, st) := stNowMs env st
      -- source: completePipelineRun(...) when the context exists, its own
      -- failure caught and logged; no observable effect, not modelled.
      let (completedAt, st) := stNow env st
      ({ id := pipelineId, status := "completed", briefingId := briefingId,
         accountId := payload.accountId,
         assistantId := payload.briefing.assistantId,
         generatedPrompt := some generatedPrompt,
         injectionFile := some injectionFile,
         costEntries := st.session.sessionCosts,
         totalDuration := endTime - startTime, steps := steps, error := none,
         completedAt := completedAt }, st)
  else
    let (steps, st) := logStep env "Load Account Config" "failed"
      keyValidation.error steps st
    createFailedResult env payload pipelineId steps (keyValidation.error.getD "")
      (some startTime) st

/-- `runPipeline` (the Supabase-aware pipeline orchestrator): merge the
config, read the start clock, reset the session ledger, generate ids,
best-effort initialize the Supabase context, then run the step sequence. -/
def runPipeline (env : Env) (ext : ExternalServices) (payload : PipelineBriefingInput)
    (config : PartialPipelineConfig) (st0 : St) : PipelineResult × St :=
  let pipelineConfig := mergeConfig DEFAULT_CONFIG config
  let (startTime, st) := stNowMs env st0
  let st : St := { st with session := resetSession }
  let (pipelineId, st) := stFreshId env "pipeline" st
  let (briefingId, st) :=
    if payload.briefing.id = "" then stFreshId env "briefing" st
    else (payload.briefing.id, st)
  -- Step 0: initialize the Supabase context; failure here is caught,
  -- logged, and the run proceeds without durable persistence.
  let ctx : Option SupabaseContext :=
    if pipelineConfig.enableSupabase then
      match initializeSupabaseContext ext payload pipelineId briefingId with
      | .ok c => some c
      | .error _ => none
    else none
  runPipelineWithCtx env ext payload pipelineConfig ctx pipelineId briefingId
    startTime st

/-- The 1-based position of a named step in the fixed sequence of §4.6. -/
def stepIndex : String → Nat
  | "Load Account Config" => 1
  | "Generate Prompt" => 2
  | "Determine Version" => 3
  | "Create Injection File" => 4
  | "Save Prompt Version" => 5
  | "Log Costs" => 6
  | _ => 0

/-- Acceptor for a well-formed step log, projected to (name, status) pairs:
a sequence of blocks, each a `running` entry followed immediately by a
terminal `completed`/`failed` entry of the same named step, with step
indices strictly increasing along the log; the log may end with a lone
`running` entry (a fatal abort inside that step).  Acceptance implies the
fixed §4.6 order, no re-entry, and `running` before every terminal entry. -/
def blocksOk (lo : Nat) : List (String × String) → Bool
  | [] => true
  | (n, s) :: rest =>
    decide (lo ≤ stepIndex n) && decide (1 ≤ stepIndex n) && (s == "running") &&
    (match rest with
     | [] => true
     | (n2, s2) :: rest2 =>
       (n2 == n) && ((s2 == "completed") || (s2 == "failed"))
         && blocksOk (stepIndex n + 1) rest2)

/-- The operations recorded in the session ledger, in order. -/
def sessionOps (st : St) : List String :=
  st.session.sessionCosts.map fun c => c.operation

/-- The raw cache amount computed by `calculateCostWithPricing` before
packaging. -/
def cacheAmount (u : TokenUsage) (p : ModelPricing) : ℚ :=
  (if truthyNat u.cacheReadTokens && truthyRat p.cacheReadPer1M then
      ((u.cacheReadTokens.getD 0 : Nat) : ℚ) / 1000000 * p.cacheReadPer1M.getD 0
    else 0)
  + (if truthyNat u.cacheWriteTokens && truthyRat p.cacheWritePer1M then
      ((u.cacheWriteTokens.getD 0 : Nat) : ℚ) / 1000000 * p.cacheWritePer1M.getD 0
    else 0)

/-- All rates of a pricing entry are non-negative (true of every entry of
`MODEL_PRICING` and of the fallback). -/
def nonnegPricing (p : ModelPricing) : Prop :=
  0 ≤ p.inputPer1M ∧ 0 ≤ p.outputPer1M
    ∧ 0 ≤ p.cacheReadPer1M.getD 0 ∧ 0 ≤ p.cacheWritePer1M.getD 0

/-! Concrete fixtures used by closed (witness / counterexample / end-to-end)
theorems. -/

def env0 : Env :=
  { nowISO := fun t => "ts-" ++ toString t
    nowMs := fun t => 1000 + t
    freshId := fun p n => p ++ "-id-" ++ toString n
    hash := fun s => "h-" ++ s
    stringifyBriefing := fun b => "json-" ++ b.id
    prismaSystemPrompt := "PRISMA" }

def briefing0 : Briefing :=
  { id := "brief-1", accountId := "acct-1", assistantId := "asst-1",
    formData :=
      { businessName := "Biz", productService := "Service",
        differentials := "", salesProcess := "", tools := "",
        idealClient := ["Founders"], mainDesires := ["Growth"], fears := [],
        objections := [], journeyMoment := [], brandPerception := "Friendly",
        toneOfVoice := "Warm", mustSayMessages := "", internalActions := "",
        neverUse := "", scheduleAdaptation := "No", specialConditions := "",
        mandatorySteps := "None", qualificationCriteria := "",
        documentsFlow := "", mainObjective := "Sell", minimumResult := "" },
    createdAt := "2024-01-01T00:00:00Z" }

def payload0 : PipelineBriefingInput :=
  { briefing := briefing0, accountId := "acct-1", assistantId := "asst-1",
    timestamp := "2024-01-01T00:00:00Z" }

/-- The stub usage of the spec's end-to-end scenario (§8). -/
def stubUsage : TokenUsage := { inputTokens := 100, outputTokens := 50 }

/-- The stub completion provider of the spec's end-to-end scenario: echo
fixed strings, report `stubUsage` on every call. -/
def echoProvider : CompletionProvider :=
  totalProvider (fun _ _ => ("GENERATED", stubUsage))
    (fun _ _ => ("ANALYSIS", stubUsage))
    (fun _ _ _ _ => ("IMPROVED", stubUsage))

def st0 : St := { tick := 0, ids := 0, session := resetSession }

/-- External services that always succeed. -/
def okServices : ExternalServices :=
  { provider := echoProvider
    loadAccountConfig := fun _ =>
      .ok (some { id := "acct-1", name := "Account One",
                  assistants := ["asst-1"], createdAt := "2024-01-01" })
    validateApiKeyConfigured := { valid := true }
    getOrCreateAccount := fun _ _ => .ok { id := "sb-acct" }
    getOrCreateAssistant := fun _ _ _ => .ok { id := "sb-asst" }
    createPipelineRun := fun _ => .ok { id := "sb-run" }
    createPipelineSteps := fun _ => .ok []
    getNextVersionNumber := fun _ => .ok 3
    createPromptVersion := fun _ => .ok ()
    findOrCreateFolder := fun _ => .ok "folder-1"
    findCostSpreadsheet := fun _ _ => .ok (some "sheet-1")
    createCostSpreadsheet := fun _ _ => .ok "sheet-2"
    appendCostEntries := fun _ _ => .ok ()
    appendVersionEntries := fun _ _ => .ok ()
    updateSummary := fun _ _ => .ok () }

/-- Services for which both auxiliary persistence writes fail: the Supabase
prompt-version insert and the Google Sheets folder lookup. -/
def spvSheetsFailServices : ExternalServices :=
  { okServices with
      createPromptVersion := fun _ => .error "db down"
      findOrCreateFolder := fun _ => .error "google down" }

/-- Services whose completion provider throws on the initial generation. -/
def genFailServices : ExternalServices :=
  { okServices with provider :=
      { echoProvider with generatePromptFromBriefing := fun _ _ => .error "provider down" } }

/-- Services whose durable-context initialization throws. -/
def initFailServices : ExternalServices :=
  { okServices with getOrCreateAccount := fun _ _ => .error "supabase down" }

/-- Services for which only `createPromptVersion` throws. -/
def spvFailServices : ExternalServices :=
  { okServices with createPromptVersion := fun _ => .error "db down" }

/-- Services for which only the Google Sheets folder lookup throws. -/
def sheetsFailServices : ExternalServices :=
  { okServices with findOrCreateFolder := fun _ => .error "google down" }

/-- Services whose completion provider throws on the analyze call (after a
successful initial generation). -/
def analyzeFailServices : ExternalServices :=
  { okServices with provider :=
      { echoProvider with analyzePrompt := fun _ _ => .error "analyze down" } }

/-- Services whose durable next-version read throws. -/
def verFailServices : ExternalServices :=
  { okServices with getNextVersionNumber := fun _ => .error "rpc down" }

/-- A concrete Supabase context. -/
def ctx0 : SupabaseContext :=
  { account := { id := "sb-acct" }, assistant := { id := "sb-asst" },
    pipelineRun := { id := "sb-run" }, stepRecords := [] }

/-! ### Cost Calculator (claim C5) -/

theorem calculateCost_eq_effective (u : TokenUsage) (m : String) :
    calculateCost u m = calculateCostWithPricing u ((MODEL_PRICING m).getD opusPricing) := by
  cases h : MODEL_PRICING m <;> simp [calculateCost, h]

theorem effective_nonneg (m : String) :
    nonnegPricing ((MODEL_PRICING m).getD opusPricing) := by
  unfold MODEL_PRICING nonnegPricing
  split_ifs <;> norm_num [opusPricing]

theorem truthyNat_false_getD {o : Option Nat} (h : truthyNat o = false) :
    o.getD 0 = 0 := by
  cases o with
  | none => rfl
  | some n =>
    simp [truthyNat] at h
    simp [h]

theorem calcWP_inputCost (u : TokenUsage) (p : ModelPricing) :
    (calculateCostWithPricing u p).inputCost
      = (u.inputTokens : ℚ) / 1000000 * p.inputPer1M := rfl

theorem calcWP_outputCost (u : TokenUsage) (p : ModelPricing) :
    (calculateCostWithPricing u p).outputCost
      = (u.outputTokens : ℚ) / 1000000 * p.outputPer1M := rfl

theorem calcWP_cacheCost (u : TokenUsage) (p : ModelPricing) :
    (calculateCostWithPricing u p).cacheCost
      = (if 0 < cacheAmount u p then some (cacheAmount u p) else none) := rfl

theorem calcWP_total (u : TokenUsage) (p : ModelPricing) :
    (calculateCostWithPricing u p).totalCostUsd
      = (calculateCostWithPricing u p).inputCost
        + (calculateCostWithPricing u p).outputCost + cacheAmount u p := rfl

theorem cacheAmount_nonneg (u : TokenUsage) (p : ModelPricing)
    (hp : nonnegPricing p) : 0 ≤ cacheAmount u p := by
  unfold cacheAmount
  have h1 : (0 : ℚ) ≤ p.cacheReadPer1M.getD 0 := hp.2.2.1
  have h2 : (0 : ℚ) ≤ p.cacheWritePer1M.getD 0 := hp.2.2.2
  apply add_nonneg <;> split <;> positivity

theorem calcWP_cacheCost_getD (u : TokenUsage) (p : ModelPricing)
    (hp : nonnegPricing p) :
    (calculateCostWithPricing u p).cacheCost.getD 0 = cacheAmount u p := by
  rw [calcWP_cacheCost]
  split
  · rfl
  · next h =>
    have h0 := cacheAmount_nonneg u p hp
    have : cacheAmount u p = 0 := le_antisymm (not_lt.mp h) h0
    simp [this]

theorem cacheAmount_linear (u : TokenUsage) (p : ModelPricing) :
    cacheAmount u p
      = (u.cacheReadTokens.getD 0 : ℚ)
          * cacheAmount { inputTokens := 0, outputTokens := 0, cacheReadTokens := some 1 } p
        + (u.cacheWriteTokens.getD 0 : ℚ)
          * cacheAmount { inputTokens := 0, outputTokens := 0, cacheWriteTokens := some 1 } p := by
  unfold cacheAmount
  simp only [truthyNat]
  cases hr : u.cacheReadTokens with
  | none =>
    cases hw : u.cacheWriteTokens with
    | none => simp [truthyNat]
    | some w =>
      by_cases hw0 : w = 0
      · simp [truthyNat, hw0]
      · simp only [truthyNat, Option.getD_some, Option.getD_none]
        by_cases hwr : truthyRat p.cacheWritePer1M
        · simp [hw0, hwr]
          ring
        · simp [hw0, hwr]
  | some r =>
    cases hw : u.cacheWriteTokens with
    | none =>
      by_cases hr0 : r = 0
      · simp [truthyNat, hr0]
      · simp only [truthyNat, Option.getD_some, Option.getD_none]
        by_cases hrr : truthyRat p.cacheReadPer1M
        · simp [hr0, hrr]
          ring
        · simp [hr0, hrr]
    | some w =>
      simp only [truthyNat, Option.getD_some, Option.getD_none]
      by_cases hr0 : r = 0 <;> by_cases hw0 : w = 0 <;>
        by_cases hrr : truthyRat p.cacheReadPer1M <;>
        by_cases hwr : truthyRat p.cacheWritePer1M <;>
        simp [hr0, hw0, hrr, hwr] <;> ring

/-- Claim C5: for every token usage U and model identifier M, `calculateCost(U, M)`
returns a breakdown whose `totalCostUsd` equals `inputCost + outputCost +
cacheCost` (cache taken as 0 when absent), each component non-negative and
linear in its corresponding token count (component = token count × the
component of a one-token usage), and an unknown model falls back to the
default model's price-table rates without throwing. -/
theorem calculateCost_spec (usage : TokenUsage) (model : String) :
    ((calculateCost usage model).totalCostUsd
      = (calculateCost usage model).inputCost
        + (calculateCost usage model).outputCost
        + (calculateCost usage model).cacheCost.getD 0)
    ∧ 0 ≤ (calculateCost usage model).inputCost
    ∧ 0 ≤ (calculateCost usage model).outputCost
    ∧ 0 ≤ (calculateCost usage model).cacheCost.getD 0
    ∧ (calculateCost usage model).inputCost
        = (usage.inputTokens : ℚ)
          * (calculateCost { inputTokens := 1, outputTokens := 0 } model).inputCost
    ∧ (calculateCost usage model).outputCost
        = (usage.outputTokens : ℚ)
          * (calculateCost { inputTokens := 0, outputTokens := 1 } model).outputCost
    ∧ (calculateCost usage model).cacheCost.getD 0
        = (usage.cacheReadTokens.getD 0 : ℚ)
          * (calculateCost
              { inputTokens := 0, outputTokens := 0, cacheReadTokens := some 1 }
              model).cacheCost.getD 0
        + (usage.cacheWriteTokens.getD 0 : ℚ)
          * (calculateCost
              { inputTokens := 0, outputTokens := 0, cacheWriteTokens := some 1 }
              model).cacheCost.getD 0
    ∧ (MODEL_PRICING model = none →
        calculateCost usage model = calculateCost usage DEFAULT_MODEL) := by
  have hp := effective_nonneg model
  set p := (MODEL_PRICING model).getD opusPricing with hpdef
  have he : ∀ u : TokenUsage, calculateCost u model = calculateCostWithPricing u p :=
    fun u => calculateCost_eq_effective u model
  refine ⟨?_, ?_, ?_, ?_, ?_, ?_, ?_, ?_⟩
  · rw [he, calcWP_total, calcWP_cacheCost_getD usage p hp]
  · rw [he, calcWP_inputCost]
    have : (0 : ℚ) ≤ p.inputPer1M := hp.1
    positivity
  · rw [he, calcWP_outputCost]
    have : (0 : ℚ) ≤ p.outputPer1M := hp.2.1
    positivity
  · rw [he, calcWP_cacheCost_getD usage p hp]
    exact cacheAmount_nonneg usage p hp
  · rw [he, he, calcWP_inputCost, calcWP_inputCost]
    push_cast
    ring
  · rw [he, he, calcWP_outputCost, calcWP_outputCost]
    push_cast
    ring
  · rw [he, he, he, calcWP_cacheCost_getD usage p hp,
      calcWP_cacheCost_getD _ p hp, calcWP_cacheCost_getD _ p hp]
    exact cacheAmount_linear usage p
  · intro hnone
    rw [he, hpdef, hnone, calculateCost_eq_effective usage DEFAULT_MODEL]
    rfl

/-- Witness for C5's fallback hypothesis at a concrete unknown model. -/
theorem calculateCost_spec_witness :
    MODEL_PRICING "gpt-oss" = none
    ∧ calculateCost { inputTokens := 2, outputTokens := 3 } "gpt-oss"
        = calculateCost { inputTokens := 2, outputTokens := 3 } DEFAULT_MODEL := by
  refine ⟨by decide, ?_⟩
  exact (calculateCost_spec { inputTokens := 2, outputTokens := 3 }
    "gpt-oss").2.2.2.2.2.2.2 (by decide)

/-! ### Version Assigner (claim C6) -/

theorem digitChar_toNat {d : Nat} (h : d < 10) : (Nat.digitChar d).toNat = 48 + d := by
  interval_cases d <;> decide

theorem digitChar_isDigit {d : Nat} (h : d < 10) : (Nat.digitChar d).isDigit = true := by
  interval_cases d <;> decide

theorem toDigitsCore_succ (b fuel n : Nat) (ds : List Char) :
    Nat.toDigitsCore b (fuel + 1) n ds =
      if n / b = 0 then Nat.digitChar (n % b) :: ds
      else Nat.toDigitsCore b fuel (n / b) (Nat.digitChar (n % b) :: ds) := rfl

theorem toDigitsCore_spec (fuel : Nat) :
    ∀ (n : Nat) (ds : List Char), n < 10 ^ (fuel + 1) →
      ∃ pre : List Char,
        Nat.toDigitsCore 10 (fuel + 1) n ds = pre ++ ds
        ∧ pre ≠ []
        ∧ (∀ c ∈ pre, c.isDigit = true)
        ∧ ∀ a : Nat, pre.foldl digitStep a = a * 10 ^ pre.length + n := by
  induction fuel with
  | zero =>
    intro n ds h
    have hn : n < 10 := by simpa using h
    have hdiv : n / 10 = 0 := Nat.div_eq_of_lt hn
    refine ⟨[Nat.digitChar (n % 10)], ?_, by simp, ?_, ?_⟩
    · rw [toDigitsCore_succ, if_pos hdiv]
      rfl
    · intro c hc
      simp only [List.mem_singleton] at hc
      subst hc
      exact digitChar_isDigit (Nat.mod_lt _ (by norm_num))
    · intro a
      have hmod : n % 10 = n := Nat.mod_eq_of_lt hn
      simp only [List.foldl, digitStep, hmod, List.length_singleton, pow_one]
      rw [digitChar_toNat hn]
      omega
  | succ fuel ih =>
    intro n ds h
    by_cases h10 : n / 10 = 0
    · have hn : n < 10 := by
        have := Nat.div_eq_zero_iff (by norm_num : 0 < 10) |>.mp h10
        exact this
      have hmod : n % 10 = n := Nat.mod_eq_of_lt hn
      refine ⟨[Nat.digitChar (n % 10)], ?_, by simp, ?_, ?_⟩
      · rw [toDigitsCore_succ, if_pos h10]
        rfl
      · intro c hc
        simp only [List.mem_singleton] at hc
        subst hc
        exact digitChar_isDigit (Nat.mod_lt _ (by norm_num))
      · intro a
        simp only [List.foldl, digitStep, hmod, List.length_singleton, pow_one]
        rw [digitChar_toNat hn]
        omega
    · have hdivlt : n / 10 < 10 ^ (fuel + 1) := by
        rw [Nat.div_lt_iff_lt_mul (by norm_num : 0 < 10)]
        calc n < 10 ^ (fuel + 1 + 1) := h
          _ = 10 ^ (fuel + 1) * 10 := by rw [pow_succ]
      obtain ⟨pre', heq, hne, hdig, hfold⟩ :=
        ih (n / 10) (Nat.digitChar (n % 10) :: ds) hdivlt
      refine ⟨pre' ++ [Nat.digitChar (n % 10)], ?_, by simp, ?_, ?_⟩
      · rw [toDigitsCore_succ, if_neg h10, heq]
        simp
      · intro c hc
        rcases List.mem_append.mp hc with hc | hc
        · exact hdig c hc
        · simp only [List.mem_singleton] at hc
          subst hc
          exact digitChar_isDigit (Nat.mod_lt _ (by norm_num))
      · intro a
        rw [List.foldl_append, hfold a]
        simp only [List.foldl, digitStep, List.length_append, List.length_singleton]
        rw [digitChar_toNat (Nat.mod_lt n (by norm_num))]
        have hsub : 48 + n % 10 - 48 = n % 10 := by omega
        rw [hsub]
        calc (a * 10 ^ pre'.length + n / 10) * 10 + n % 10
            = a * (10 ^ pre'.length * 10) + (n / 10 * 10 + n % 10) := by ring
          _ = a * 10 ^ (pre'.length + 1) + n := by
              rw [pow_succ]
              congr 1
              omega

theorem repr_digits (n : Nat) :
    ∃ pre : List Char,
      (Nat.repr n).toList = pre ∧ pre ≠ [] ∧ (∀ c ∈ pre, c.isDigit = true)
      ∧ pre.foldl digitStep 0 = n := by
  have h : n < 10 ^ (n + 1) :=
    lt_of_lt_of_le (Nat.lt_pow_self (by norm_num) n)
      (pow_le_pow_right₀ (by norm_num) (Nat.le_succ n))
  obtain ⟨pre, heq, hne, hdig, hfold⟩ := toDigitsCore_spec n n [] h
  refine ⟨pre, ?_, hne, hdig, ?_⟩
  · show (Nat.toDigits 10 n).asString.toList = pre
    unfold Nat.toDigits
    rw [heq]
    simp [List.asString, String.toList]
  · have := hfold 0
    simpa using this

theorem isDigit_not_special {c : Char} (h : c.isDigit = true) :
    c ≠ ' ' ∧ c ≠ '-' ∧ c ≠ '+' := by
  refine ⟨?_, ?_, ?_⟩ <;> rintro rfl <;> exact absurd h (by decide)

theorem parseIntJS_repr (n : Nat) : parseIntJS (Nat.repr n) = some (n : Int) := by
  obtain ⟨pre, heq, hne, hdig, hfold⟩ := repr_digits n
  obtain ⟨c, rest, rfl⟩ := List.exists_cons_of_ne_nil hne
  have hc := hdig c (List.mem_cons_self c rest)
  obtain ⟨hsp, hmin, hpl⟩ := isDigit_not_special hc
  have htake : List.takeWhile Char.isDigit (c :: rest) = c :: rest :=
    List.takeWhile_eq_self_iff.mpr hdig
  unfold parseIntJS
  rw [heq]
  simp [hsp, hmin, hpl, htake, hfold]

theorem jsReplaceFirst_v (s : String) : jsReplaceFirst ("v" ++ s) "v" = s := by
  unfold jsReplaceFirst
  have h1 : ("v" ++ s).toList = 'v' :: s.toList := rfl
  have h2 : ("v" : String).toList = ['v'] := rfl
  rw [h1, h2]
  show String.mk (replaceFirstAux ['v'] ('v' :: s.toList)) = s
  unfold replaceFirstAux
  rw [if_pos (by simp [List.isPrefixOf])]
  show String.mk s.toList = s
  cases s
  rfl

theorem versionNumbersOf_canonical (l : List Nat) :
    versionNumbersOf (l.map (fun k => "v" ++ Nat.repr k))
      = l.map (fun k => Int.ofNat k) := by
  induction l with
  | nil => rfl
  | cons x xs ih =>
    unfold versionNumbersOf at ih ⊢
    simp only [List.map_cons, List.filterMap_cons, jsReplaceFirst_v, parseIntJS_repr, id]
    rw [ih]
    rfl

theorem foldl_max_ofNat (l : List Nat) (a : Nat) :
    (l.map (fun k => Int.ofNat k)).foldl max (Int.ofNat a) = Int.ofNat (l.foldl max a) := by
  induction l generalizing a with
  | nil => rfl
  | cons x xs ih =>
    simp only [List.map_cons, List.foldl_cons]
    have hmax : max (Int.ofNat a) (Int.ofNat x) = Int.ofNat (max a x) := by
      simp [Int.ofNat_eq_natCast, Nat.cast_max]
    rw [hmax]
    exact ih (max a x)

/-- Claim C6: the Version Assigner returns version `"v1"` / number 1 when the
assistant has no prior versions; when the prior maximum version number is n
it returns n+1 (version `"v" + (n+1)`) — both for the local
`getNextVersion` over canonically-named versions and for the repository
fallback read; and when durable persistence is unavailable or the durable
read fails, the Determine Version step falls back to version number 1 (with
a logged warning) instead of aborting. -/
theorem getNextVersion_spec :
    getNextVersion [] = "v1"
    ∧ (∀ l : List Nat, l ≠ [] →
        getNextVersion (l.map (fun k => "v" ++ Nat.repr k))
          = "v" ++ Nat.repr (l.foldl max 0 + 1))
    ∧ (∀ rpcError : String,
        getNextVersionNumberFallback (.error rpcError) (.ok none) = .ok 1)
    ∧ (∀ (rpcError : String) (n : Nat),
        getNextVersionNumberFallback (.error rpcError) (.ok (some n)) = .ok (n + 1))
    ∧ (∀ (d : Nat) (latest : Except String (Option Nat)),
        getNextVersionNumberFallback (.ok d) latest = .ok d)
    ∧ (∀ (ext : ExternalServices) (c : SupabaseContext) (e : String),
        ext.getNextVersionNumber c.assistant.id = .error e →
        determineVersion ext (some c) true = ("v1", 1))
    ∧ (∀ (ext : ExternalServices) (b : Bool), determineVersion ext none b = ("v1", 1))
    ∧ (∀ (ext : ExternalServices) (c : SupabaseContext) (n : Nat),
        ext.getNextVersionNumber c.assistant.id = .ok n →
        determineVersion ext (some c) true = ("v" ++ Nat.repr n, n)) := by
  refine ⟨rfl, ?_, fun _ => rfl, fun _ _ => rfl, fun _ _ => rfl, ?_, fun _ _ => rfl, ?_⟩
  · intro l hne
    unfold getNextVersion
    rw [if_neg (by simpa using hne)]
    rw [versionNumbersOf_canonical]
    rw [show (0 : Int) = Int.ofNat 0 from rfl, foldl_max_ofNat l 0]
    rfl
  · intro ext c e h
    simp [determineVersion, h]
  · intro ext c n h
    simp [determineVersion, h]
    rfl

/-- Witness for C6 at concrete inputs. -/
theorem getNextVersion_spec_witness :
    getNextVersion [] = "v1"
    ∧ getNextVersion ["v3", "v7", "v2"] = "v8"
    ∧ getNextVersionNumberFallback (.error "rpc down") (.ok (some 4)) = .ok 5
    ∧ determineVersion verFailServices (some ctx0) true = ("v1", 1) := by
  refine ⟨getNextVersion_spec.1, ?_, ?_, ?_⟩
  · exact getNextVersion_spec.2.1 [3, 7, 2] (by decide)
  · exact getNextVersion_spec.2.2.2.1 "rpc down" 4
  · exact getNextVersion_spec.2.2.2.2.2.1 verFailServices ctx0 "rpc down" rfl

/-! ### Iterative Refinement Loop (claims C1, C4, C7) -/

theorem iterateRounds_succ (env : Env)
    (f g : String → String → String × TokenUsage)
    (h : String → String → String → String → String × TokenUsage)
    (briefing : Briefing) (accountId : String) (n i : Nat) (cp : String)
    (tu : TokenUsage) (its : List SimplePromptIteration) (st : St) :
    iterateRounds env (totalProvider f g h) briefing accountId (n + 1) i cp tu its st
      = iterateRounds env (totalProvider f g h) briefing accountId n (i + 1)
          (roundData env g h briefing accountId cp i tu st).1
          (roundData env g h briefing accountId cp i tu st).2.1
          (its ++ [(roundData env g h briefing accountId cp i tu st).2.2.1])
          (roundData env g h briefing accountId cp i tu st).2.2.2 := rfl

theorem roundData_ops (env : Env)
    (g : String → String → String × TokenUsage)
    (h : String → String → String → String → String × TokenUsage)
    (briefing : Briefing) (accountId cp : String) (i : Nat) (tu : TokenUsage)
    (st : St) :
    sessionOps (roundData env g h briefing accountId cp i tu st).2.2.2
      = sessionOps st ++ ["prompt_analysis", "prompt_improvement"] := by
  simp [roundData, sessionOps, logCost, stNow, stFreshId, createCostEntry]

theorem roundData_iterNum (env : Env)
    (g : String → String → String × TokenUsage)
    (h : String → String → String → String → String × TokenUsage)
    (briefing : Briefing) (accountId cp : String) (i : Nat) (tu : TokenUsage)
    (st : St) :
    (roundData env g h briefing accountId cp i tu st).2.2.1.iterationNumber = i + 1 := rfl

theorem roundData_snapshot (env : Env)
    (g : String → String → String × TokenUsage)
    (h : String → String → String → String → String × TokenUsage)
    (briefing : Briefing) (accountId cp : String) (i : Nat) (tu : TokenUsage)
    (st : St) :
    (roundData env g h briefing accountId cp i tu st).2.2.1.promptSnapshot
      = (roundData env g h briefing accountId cp i tu st).1 := rfl

theorem iterateRounds_spec (env : Env)
    (f g : String → String → String × TokenUsage)
    (h : String → String → String → String → String × TokenUsage)
    (briefing : Briefing) (accountId : String) :
    ∀ (n i : Nat) (cp : String) (tu : TokenUsage)
      (its : List SimplePromptIteration) (st : St),
      ∃ (cp2 : String) (tu2 : TokenUsage) (newIts : List SimplePromptIteration)
        (st2 : St),
        iterateRounds env (totalProvider f g h) briefing accountId n i cp tu its st
          = (.ok (cp2, tu2, its ++ newIts), st2)
        ∧ newIts.map (fun r => r.iterationNumber) = List.range' (i + 1) n
        ∧ sessionOps st2 = sessionOps st
            ++ (List.replicate n ["prompt_analysis", "prompt_improvement"]).join
        ∧ newIts.length = n
        ∧ (newIts.getLast?.map (fun r => r.promptSnapshot)
            = if n = 0 then none else some cp2)
        ∧ (n = 0 → cp2 = cp) := by
  intro n
  induction n with
  | zero =>
    intro i cp tu its st
    refine ⟨cp, tu, [], st, by simp [iterateRounds], by simp, by simp, rfl, by simp,
      fun _ => rfl⟩
  | succ n ih =>
    intro i cp tu its st
    rw [iterateRounds_succ]
    obtain ⟨cp2, tu2, newIts', st2, heq, hnum, hops, hlen, hlast, hzero⟩ :=
      ih (i + 1) (roundData env g h briefing accountId cp i tu st).1
        (roundData env g h briefing accountId cp i tu st).2.1
        (its ++ [(roundData env g h briefing accountId cp i tu st).2.2.1])
        (roundData env g h briefing accountId cp i tu st).2.2.2
    refine ⟨cp2, tu2,
      (roundData env g h briefing accountId cp i tu st).2.2.1 :: newIts', st2,
      ?_, ?_, ?_, ?_, ?_, ?_⟩
    · rw [heq]
      simp
    · simp only [List.map_cons, hnum, roundData_iterNum]
      rw [List.range'_succ]
    · rw [hops, roundData_ops]
      simp [List.replicate_succ]
    · simp [hlen]
    · cases n with
      | zero =>
        have hnil : newIts' = [] := List.length_eq_zero.mp hlen
        subst hnil
        simp [hzero rfl, roundData_snapshot]
      | succ m =>
        obtain ⟨y, ys, rfl⟩ : ∃ y ys, newIts' = y :: ys := by
          cases newIts' with
          | nil => simp at hlen
          | cons y ys => exact ⟨y, ys, rfl⟩
        rw [List.getLast?_cons_cons]
        rw [hlast]
        simp
    · intro hcontra
      exact absurd hcontra (Nat.succ_ne_zero n)

theorem logCost_ops (env : Env) (accountId assistantId op : String)
    (usage : TokenUsage) (model version : Option String)
    (metadata : List (String × String)) (st : St) :
    sessionOps (logCost env accountId assistantId op usage model version metadata st).2
      = sessionOps st ++ [op] := by
  simp [logCost, sessionOps, stNow, stFreshId, createCostEntry]

theorem jsOrNat_one_ne_zero (o : Option Nat) : jsOrNat o 1 ≠ 0 := by
  cases o with
  | none => simp [jsOrNat]
  | some n =>
    simp only [jsOrNat]
    split <;> omega

theorem totalProvider_gen (f g : String → String → String × TokenUsage)
    (h : String → String → String → String → String × TokenUsage) :
    (totalProvider f g h).generatePromptFromBriefing = fun a b => Except.ok (f a b) := rfl

theorem generatePromptWithIteration_spec (env : Env)
    (f g : String → String → String × TokenUsage)
    (h : String → String → String → String → String × TokenUsage)
    (briefing : Briefing) (accountId : String) (param : Option Nat) (st : St) :
    ∃ (p : GeneratedPrompt) (st2 : St),
      generatePromptWithIteration env (totalProvider f g h) briefing accountId param st
        = (.ok p, st2)
      ∧ p.simpleIterations.map (fun r => r.iterationNumber)
          = List.range' 1 (jsOrNat param 1)
      ∧ sessionOps st2
          = sessionOps st ++ ["prompt_generation"]
            ++ (List.replicate (jsOrNat param 1)
                 ["prompt_analysis", "prompt_improvement"]).join
      ∧ p.simpleIterations.length = jsOrNat param 1
      ∧ p.simpleIterations.getLast?.map (fun r => r.promptSnapshot) = some p.content
      ∧ p.metadataIterations = jsOrNat param 1 := by
  obtain ⟨cp2, tu2, newIts, st2, heq, hnum, hops, hlen, hlast, _⟩ :=
    iterateRounds_spec env f g h briefing accountId (jsOrNat param 1) 0
      (f (formatBriefingAsMarkdown briefing) env.prismaSystemPrompt).1
      { inputTokens :=
          0 + (f (formatBriefingAsMarkdown briefing) env.prismaSystemPrompt).2.inputTokens
        outputTokens :=
          0 + (f (formatBriefingAsMarkdown briefing) env.prismaSystemPrompt).2.outputTokens }
      []
      (logCost env accountId briefing.assistantId "prompt_generation"
        (f (formatBriefingAsMarkdown briefing) env.prismaSystemPrompt).2
        none none [("phase", "initial")] st).2
  refine ⟨{ id := (stFreshId env "prompt" st2).1
            accountId := accountId
            assistantId := briefing.assistantId
            content := cp2
            version := "draft"
            createdAt := (stNow env (stFreshId env "prompt" st2).2).1
            metadataBriefingId := briefing.id
            metadataIterations := jsOrNat param 1
            metadataModel := "claude-opus-4-5-20251101"
            simpleIterations := [] ++ newIts },
    (stNow env (stFreshId env "prompt" st2).2).2, ?_, ?_, ?_, ?_, ?_, ?_⟩
  · simp only [generatePromptWithIteration, generateInitialPrompt, totalProvider_gen]
    rw [heq]
  · simp only [List.nil_append]
    rw [hnum]
  · rw [show sessionOps ((stNow env (stFreshId env "prompt" st2).2).2) = sessionOps st2
      from rfl]
    rw [hops, logCost_ops]
  · simp only [List.nil_append]
    exact hlen
  · simp only [List.nil_append]
    rw [hlast, if_neg (jsOrNat_one_ne_zero param)]
  · rfl

/-- Claim C4: for every `maxIterations = k > 0`, the Iterative Refinement Loop
performs exactly 2k completion calls after the initial generation (k analyze
and k improve calls, alternating, as recorded in order in the session
ledger) and returns exactly k iteration records whose `iterationNumber`
fields are strictly increasing from 1 to k; the returned prompt is the
output of the last improve call. -/
theorem generatePromptWithIteration_rounds (env : Env)
    (f g : String → String → String × TokenUsage)
    (h : String → String → String → String → String × TokenUsage)
    (briefing : Briefing) (accountId : String) (k : Nat) (hk : 0 < k) (st : St) :
    ∃ (p : GeneratedPrompt) (st2 : St),
      generatePromptWithIteration env (totalProvider f g h) briefing accountId
          (some k) st = (.ok p, st2)
      ∧ sessionOps st2 = sessionOps st ++ ["prompt_generation"]
          ++ (List.replicate k ["prompt_analysis", "prompt_improvement"]).join
      ∧ p.simpleIterations.length = k
      ∧ p.simpleIterations.map (fun r => r.iterationNumber) = List.range' 1 k
      ∧ p.simpleIterations.getLast?.map (fun r => r.promptSnapshot) = some p.content := by
  have hj : jsOrNat (some k) 1 = k := by
    simp only [jsOrNat]
    split
    · omega
    · rfl
  obtain ⟨p, st2, hgen, hnum, hops, hlen, hlast, _⟩ :=
    generatePromptWithIteration_spec env f g h briefing accountId (some k) st
  rw [hj] at hnum hops hlen
  exact ⟨p, st2, hgen, hops, hlen, hnum, hlast⟩

/-- Witness for C4 at k = 1 with the concrete echo stub. -/
theorem generatePromptWithIteration_rounds_witness :
    (0 : Nat) < 1
    ∧ ∃ (p : GeneratedPrompt) (st2 : St),
        generatePromptWithIteration env0
            (totalProvider (fun _ _ => ("GENERATED", stubUsage))
              (fun _ _ => ("ANALYSIS", stubUsage))
              (fun _ _ _ _ => ("IMPROVED", stubUsage)))
            briefing0 "acct-1" (some 1) st0 = (.ok p, st2)
        ∧ sessionOps st2 = sessionOps st0 ++ ["prompt_generation"]
            ++ (List.replicate 1 ["prompt_analysis", "prompt_improvement"]).join
        ∧ p.simpleIterations.length = 1
        ∧ p.simpleIterations.map (fun r => r.iterationNumber) = List.range' 1 1
        ∧ p.simpleIterations.getLast?.map (fun r => r.promptSnapshot) = some p.content :=
  ⟨by decide,
    generatePromptWithIteration_rounds env0
      (fun _ _ => ("GENERATED", stubUsage))
      (fun _ _ => ("ANALYSIS", stubUsage))
      (fun _ _ _ _ => ("IMPROVED", stubUsage))
      briefing0 "acct-1" 1 (by decide) st0⟩

/-- Claim C1, counterexample: invoking the loop with `maxIterations = 0` does NOT
return the initial generation unmodified with an empty iteration list — the
source's `params.maxIterations || 1` treats 0 as falsy, so one full
analyze-improve round runs: three completion calls are recorded, one
iteration record is returned, and the returned prompt is the improve
output, not the initial generation. -/
theorem generator_maxIterations_zero_counterexample :
    ((generatePromptWithIteration env0 echoProvider briefing0 "acct-1" (some 0)
        st0).1.toOption.map
      (fun p => (p.simpleIterations.length, p.content)))
    = some (1, "IMPROVED")
    ∧ sessionOps (generatePromptWithIteration env0 echoProvider briefing0 "acct-1"
        (some 0) st0).2
      = ["prompt_generation", "prompt_analysis", "prompt_improvement"] :=
  ⟨rfl, rfl⟩

/-- Claim C1, amended: when the Iterative Refinement Loop is invoked with
`maxIterations = 0`, the `|| 1` default makes it behave as
`maxIterations = 1`: it performs one generation call followed by one
analyze and one improve call, and returns exactly one iteration record
(the prompt returned is the improve output, not the unmodified initial
generation). -/
theorem generator_maxIterations_zero_defaults_to_one (env : Env)
    (f g : String → String → String × TokenUsage)
    (h : String → String → String → String → String × TokenUsage)
    (briefing : Briefing) (accountId : String) (st : St) :
    ∃ (p : GeneratedPrompt) (st2 : St),
      generatePromptWithIteration env (totalProvider f g h) briefing accountId
          (some 0) st = (.ok p, st2)
      ∧ sessionOps st2 = sessionOps st
          ++ ["prompt_generation", "prompt_analysis", "prompt_improvement"]
      ∧ p.simpleIterations.length = 1
      ∧ p.simpleIterations.map (fun r => r.iterationNumber) = [1]
      ∧ p.simpleIterations.getLast?.map (fun r => r.promptSnapshot) = some p.content := by
  obtain ⟨p, st2, hgen, hnum, hops, hlen, hlast, _⟩ :=
    generatePromptWithIteration_spec env f g h briefing accountId (some 0) st
  have hj : jsOrNat (some 0) 1 = 1 := rfl
  rw [hj] at hnum hops hlen
  refine ⟨p, st2, hgen, ?_, hlen, ?_, hlast⟩
  · rw [hops]
    simp
  · rw [hnum]
    rfl

/-- Claim C7: running the pipeline on a briefing with `maxIterations = 1` against
a stub completion provider that echoes fixed strings and reports
`{inputTokens: 100, outputTokens: 50}` on every call yields exactly 3 cost
entries in the session ledger (one generation, one analysis, one
improvement, in that order), aggregate totals of 300 input and 150 output
tokens, and exactly one iteration record. -/
theorem pipeline_end_to_end_scenario :
    (runPipeline env0 okServices payload0 { maxIterations := some 1 } st0).1.costEntries.map
        (fun c => c.operation)
      = ["prompt_generation", "prompt_analysis", "prompt_improvement"]
    ∧ (runPipeline env0 okServices payload0 { maxIterations := some 1 } st0).1.costEntries.map
        (fun c => (c.inputTokens, c.outputTokens))
      = [(100, 50), (100, 50), (100, 50)]
    ∧ (runPipeline env0 okServices payload0 { maxIterations := some 1 }
        st0).2.session.sessionUsage.inputTokens = 300
    ∧ (runPipeline env0 okServices payload0 { maxIterations := some 1 }
        st0).2.session.sessionUsage.outputTokens = 150
    ∧ (runPipeline env0 okServices payload0 { maxIterations := some 1 }
        st0).1.generatedPrompt.map (fun p => p.simpleIterations.length) = some 1 := by
  refine ⟨rfl, rfl, rfl, rfl, rfl⟩

/-! ### Pipeline orchestrator (claims C2, C3, C8, C9, C10) -/

theorem createFailedResult_spec (env : Env) (payload : PipelineBriefingInput)
    (pid : String) (steps : List PipelineStep) (err : String)
    (startTime : Option Nat) (st : St) :
    (createFailedResult env payload pid steps err startTime st).1.status = "failed"
    ∧ (createFailedResult env payload pid steps err startTime st).1.error = some err
    ∧ (createFailedResult env payload pid steps err startTime st).1.steps = steps
    ∧ (createFailedResult env payload pid steps err startTime st).1.generatedPrompt = none
    ∧ (createFailedResult env payload pid steps err startTime st).1.injectionFile = none
    ∧ (createFailedResult env payload pid steps err startTime st).1.costEntries
        = (createFailedResult env payload pid steps err startTime st).2.session.sessionCosts
    ∧ (createFailedResult env payload pid steps err startTime st).2.session = st.session := by
  unfold createFailedResult
  rcases startTime with _ | s
  · by_cases hb : payload.briefing.id = "" <;> simp [hb, stNow, stNowMs, stFreshId]
  · by_cases hs : s = 0 <;> by_cases hb : payload.briefing.id = "" <;>
      simp [hs, hb, stNow, stNowMs, stFreshId]

theorem generatePromptWithIteration_genFail (env : Env)
    (provider : CompletionProvider) (briefing : Briefing) (accountId : String)
    (param : Option Nat) (st : St) (e : String)
    (hg : ∀ a b, provider.generatePromptFromBriefing a b = .error e) :
    generatePromptWithIteration env provider briefing accountId param st
      = (.error e, st) := by
  simp [generatePromptWithIteration, generateInitialPrompt, hg]

theorem createFailedResult_status (env : Env) (payload : PipelineBriefingInput)
    (pid : String) (steps : List PipelineStep) (err : String)
    (startTime : Option Nat) (st : St) :
    (createFailedResult env payload pid steps err startTime st).1.status = "failed" :=
  (createFailedResult_spec env payload pid steps err startTime st).1

theorem createFailedResult_error (env : Env) (payload : PipelineBriefingInput)
    (pid : String) (steps : List PipelineStep) (err : String)
    (startTime : Option Nat) (st : St) :
    (createFailedResult env payload pid steps err startTime st).1.error = some err :=
  (createFailedResult_spec env payload pid steps err startTime st).2.1

theorem createFailedResult_steps (env : Env) (payload : PipelineBriefingInput)
    (pid : String) (steps : List PipelineStep) (err : String)
    (startTime : Option Nat) (st : St) :
    (createFailedResult env payload pid steps err startTime st).1.steps = steps :=
  (createFailedResult_spec env payload pid steps err startTime st).2.2.1

theorem createFailedResult_generatedPrompt (env : Env)
    (payload : PipelineBriefingInput) (pid : String) (steps : List PipelineStep)
    (err : String) (startTime : Option Nat) (st : St) :
    (createFailedResult env payload pid steps err startTime st).1.generatedPrompt = none :=
  (createFailedResult_spec env payload pid steps err startTime st).2.2.2.1

theorem createFailedResult_injectionFile (env : Env)
    (payload : PipelineBriefingInput) (pid : String) (steps : List PipelineStep)
    (err : String) (startTime : Option Nat) (st : St) :
    (createFailedResult env payload pid steps err startTime st).1.injectionFile = none :=
  (createFailedResult_spec env payload pid steps err startTime st).2.2.2.2.1

theorem createFailedResult_costEntries (env : Env)
    (payload : PipelineBriefingInput) (pid : String) (steps : List PipelineStep)
    (err : String) (startTime : Option Nat) (st : St) :
    (createFailedResult env payload pid steps err startTime st).1.costEntries
      = (createFailedResult env payload pid steps err startTime st).2.session.sessionCosts :=
  (createFailedResult_spec env payload pid steps err startTime st).2.2.2.2.2.1

theorem runPipelineWithCtx_genFail (env : Env) (ext : ExternalServices)
    (payload : PipelineBriefingInput) (cfg : PipelineConfig)
    (ctx : Option SupabaseContext) (pid bid : String) (startTime : Nat) (st : St)
    (e : String) (a : AccountConfig)
    (hload : ext.loadAccountConfig payload.accountId = .ok (some a))
    (hkey : ext.validateApiKeyConfigured.valid = true)
    (hgen : ∀ st' : St, ∃ st2 : St,
      generatePromptWithIteration env ext.provider payload.briefing
        payload.accountId (some cfg.maxIterations) st' = (.error e, st2)) :
    (runPipelineWithCtx env ext payload cfg ctx pid bid startTime st).1.status = "failed"
    ∧ (runPipelineWithCtx env ext payload cfg ctx pid bid startTime st).1.error = some e
    ∧ (runPipelineWithCtx env ext payload cfg ctx pid bid startTime st).1.generatedPrompt = none
    ∧ (runPipelineWithCtx env ext payload cfg ctx pid bid startTime st).1.injectionFile = none
    ∧ (runPipelineWithCtx env ext payload cfg ctx pid bid startTime st).1.steps.map
        (fun s => (s.name, s.status))
      = [("Load Account Config", "running"), ("Load Account Config", "completed"),
         ("Generate Prompt", "running")] := by
  unfold runPipelineWithCtx
  simp only [hload, hkey, logStep, stNow, if_true]
  obtain ⟨st2, hg2⟩ := hgen _
  rw [hg2]
  simp [createFailedResult_status, createFailedResult_error,
    createFailedResult_steps, createFailedResult_generatedPrompt,
    createFailedResult_injectionFile]

/-- Claim C3: for every run in which the GeneratePrompt step throws (any error
from the refinement loop or the completion provider), `runPipeline` returns
a PipelineResult with status "failed" and the error message set, with no
`generatedPrompt` and no `injectionFile`; no later step of the sequence is
executed (the step log ends at the running Generate Prompt entry). -/
theorem pipeline_generate_failure_fatal (env : Env) (ext : ExternalServices)
    (payload : PipelineBriefingInput) (cfgP : PartialPipelineConfig) (st : St)
    (e : String) (a : AccountConfig)
    (hload : ext.loadAccountConfig payload.accountId = .ok (some a))
    (hkey : ext.validateApiKeyConfigured.valid = true)
    (hgen : ∀ st' : St, ∃ st2 : St,
      generatePromptWithIteration env ext.provider payload.briefing
        payload.accountId (some ((mergeConfig DEFAULT_CONFIG cfgP).maxIterations)) st'
        = (.error e, st2)) :
    (runPipeline env ext payload cfgP st).1.status = "failed"
    ∧ (runPipeline env ext payload cfgP st).1.error = some e
    ∧ (runPipeline env ext payload cfgP st).1.generatedPrompt = none
    ∧ (runPipeline env ext payload cfgP st).1.injectionFile = none
    ∧ (runPipeline env ext payload cfgP st).1.steps.map (fun s => (s.name, s.status))
        = [("Load Account Config", "running"), ("Load Account Config", "completed"),
           ("Generate Prompt", "running")] := by
  unfold runPipeline
  exact runPipelineWithCtx_genFail env ext payload _ _ _ _ _ _ e a hload hkey hgen

/-- Witness for C3 with a concrete provider that throws on generation. -/
theorem pipeline_generate_failure_fatal_witness :
    (runPipeline env0 genFailServices payload0 {} st0).1.status = "failed"
    ∧ (runPipeline env0 genFailServices payload0 {} st0).1.error = some "provider down"
    ∧ (runPipeline env0 genFailServices payload0 {} st0).1.generatedPrompt = none
    ∧ (runPipeline env0 genFailServices payload0 {} st0).1.injectionFile = none
    ∧ (runPipeline env0 genFailServices payload0 {} st0).1.steps.map
        (fun s => (s.name, s.status))
      = [("Load Account Config", "running"), ("Load Account Config", "completed"),
         ("Generate Prompt", "running")] :=
  pipeline_generate_failure_fatal env0 genFailServices payload0 {} st0 "provider down"
    { id := "acct-1", name := "Account One", assistants := ["asst-1"],
      createdAt := "2024-01-01" }
    rfl rfl
    (fun st' => ⟨st', generatePromptWithIteration_genFail env0 genFailServices.provider
      briefing0 "acct-1" _ st' "provider down" (fun _ _ => rfl)⟩)

set_option maxHeartbeats 1600000 in
theorem runPipelineWithCtx_blocksOk (env : Env) (ext : ExternalServices)
    (payload : PipelineBriefingInput) (cfg : PipelineConfig)
    (ctx : Option SupabaseContext) (pid bid : String) (startTime : Nat) (st : St) :
    blocksOk 1 ((runPipelineWithCtx env ext payload cfg ctx pid bid startTime
      st).1.steps.map (fun s => (s.name, s.status))) = true := by
  unfold runPipelineWithCtx
  simp only [logStep, stNow]
  repeat' split
  all_goals simp [createFailedResult_steps, blocksOk, stepIndex, stNowMs]

/-- Claim C9: within every single run, the named steps execute strictly in the
fixed sequence Load Account Config, Generate Prompt, Determine Version,
Create Injection File, Save Prompt Version, Log Costs — later steps only
after earlier ones complete, none re-entered — and every step recorded in
the result's steps array appears with status "running" immediately before
its terminal "completed"/"failed" entry (`blocksOk` is the acceptor for
exactly this discipline). -/
theorem pipeline_step_sequence (env : Env) (ext : ExternalServices)
    (payload : PipelineBriefingInput) (cfgP : PartialPipelineConfig) (st : St) :
    blocksOk 1 ((runPipeline env ext payload cfgP st).1.steps.map
      (fun s => (s.name, s.status))) = true := by
  unfold runPipeline
  exact runPipelineWithCtx_blocksOk env ext payload _ _ _ _ _ _

set_option maxHeartbeats 1600000 in
theorem runPipelineWithCtx_costEntries (env : Env) (ext : ExternalServices)
    (payload : PipelineBriefingInput) (cfg : PipelineConfig)
    (ctx : Option SupabaseContext) (pid bid : String) (startTime : Nat) (st : St) :
    (runPipelineWithCtx env ext payload cfg ctx pid bid startTime st).1.costEntries
      = (runPipelineWithCtx env ext payload cfg ctx pid bid startTime
          st).2.session.sessionCosts := by
  unfold runPipelineWithCtx
  simp only [logStep, stNow]
  repeat' split
  all_goals simp [createFailedResult_costEntries, stNowMs, stNow]

/-- Claim C10, implicit: when `runPipeline` returns a failed PipelineResult, the
result's `costEntries` field is exactly the session ledger at failure time
(`getSessionCosts()` inside `createFailedResult`), so token-cost accounting
for completion calls made prior to the abort is preserved in the failure
result rather than discarded. -/
theorem pipeline_failed_result_costEntries (env : Env) (ext : ExternalServices)
    (payload : PipelineBriefingInput) (cfgP : PartialPipelineConfig) (st : St)
    (hfail : (runPipeline env ext payload cfgP st).1.status = "failed") :
    (runPipeline env ext payload cfgP st).1.costEntries
      = (runPipeline env ext payload cfgP st).2.session.sessionCosts := by
  unfold runPipeline
  exact runPipelineWithCtx_costEntries env ext payload _ _ _ _ _ _

/-- Witness for C10: a run that fails during analysis still carries the
generation cost entry recorded before the abort. -/
theorem pipeline_failed_result_costEntries_witness :
    (runPipeline env0 analyzeFailServices payload0 {} st0).1.status = "failed"
    ∧ (runPipeline env0 analyzeFailServices payload0 {} st0).1.costEntries
        = (runPipeline env0 analyzeFailServices payload0 {} st0).2.session.sessionCosts
    ∧ (runPipeline env0 analyzeFailServices payload0 {} st0).1.costEntries.map
        (fun c => c.operation) = ["prompt_generation"] :=
  ⟨rfl,
   pipeline_failed_result_costEntries env0 analyzeFailServices payload0 {} st0 rfl,
   by rfl⟩

theorem runPipelineWithCtx_none_enable (env : Env) (ext : ExternalServices)
    (payload : PipelineBriefingInput) (mi : Nat) (ect : Bool) (b b' : Bool)
    (ssn fn pid bid : String) (startTime : Nat) (st : St) :
    runPipelineWithCtx env ext payload
        { maxIterations := mi, enableCostTracking := ect, enableSupabase := b,
          googleSpreadsheetName := ssn, googleFolderName := fn } none pid bid
        startTime st
      = runPipelineWithCtx env ext payload
          { maxIterations := mi, enableCostTracking := ect, enableSupabase := b',
            googleSpreadsheetName := ssn, googleFolderName := fn } none pid bid
          startTime st := rfl

/-- Claim C8: for every run with durable persistence enabled, if establishing the
durable-persistence context (get-or-create Account, get-or-create Assistant,
create PipelineRun, bulk-create PipelineSteps) throws, the failure is caught
(and logged), the run proceeds without durable persistence, and the run's
outcome — the whole PipelineResult and the final state — is identical to a
run with persistence not configured. -/
theorem pipeline_init_failure_nonfatal (env : Env) (ext : ExternalServices)
    (payload : PipelineBriefingInput) (cfgP : PartialPipelineConfig) (st : St)
    (hinit : ∀ pid bid, ∃ e,
      initializeSupabaseContext ext payload pid bid = .error e) :
    runPipeline env ext payload { cfgP with enableSupabase := some true } st
      = runPipeline env ext payload { cfgP with enableSupabase := some false } st := by
  unfold runPipeline
  simp only [mergeConfig, Option.getD_some]
  obtain ⟨e, he⟩ := hinit _ _
  rw [he]
  exact runPipelineWithCtx_none_enable env ext payload _ _ _ _ _ _ _ _ _ _

/-- Witness for C8: with a concrete context-initialization failure, the run
with persistence enabled equals the run with persistence disabled. -/
theorem pipeline_init_failure_nonfatal_witness :
    runPipeline env0 initFailServices payload0 { enableSupabase := some true } st0
      = runPipeline env0 initFailServices payload0 { enableSupabase := some false } st0 :=
  pipeline_init_failure_nonfatal env0 initFailServices payload0 {} st0
    (fun pid bid => ⟨"supabase down", rfl⟩)

theorem logCostsToSheets_fail (env : Env) (ext : ExternalServices)
    (a b : String) (cfg : PipelineConfig) (v : String) (br : Briefing)
    (pc : String) (st : St) (eL : String)
    (hfolder : ∀ nm, ext.findOrCreateFolder nm = .error eL) :
    logCostsToSheets env ext a b cfg v br pc st = (.error eL, st) := by
  simp [logCostsToSheets, hfolder]

theorem logCostsToSheets_ok (env : Env) (ext : ExternalServices)
    (a b : String) (cfg : PipelineConfig) (v : String) (br : Briefing)
    (pc : String) (st : St) (folderId sheetId : String)
    (hfolder : ∀ nm, ext.findOrCreateFolder nm = .ok folderId)
    (hfind : ∀ nm fid, ext.findCostSpreadsheet nm fid = .ok (some sheetId))
    (happend : ∀ sid cs, ext.appendCostEntries sid cs = .ok ())
    (happendV : ∀ sid vs, ext.appendVersionEntries sid vs = .ok ())
    (hsummary : ∀ sid u, ext.updateSummary sid u = .ok ()) :
    (logCostsToSheets env ext a b cfg v br pc st).1 = .ok () := by
  simp [logCostsToSheets, hfolder, hfind, happend, happendV, hsummary, ite_self,
    stNow]

theorem initializeSupabaseContext_ok (ext : ExternalServices)
    (payload : PipelineBriefingInput) (acct : SupaAccount) (asst : SupaAssistant)
    (runRec : SupaPipelineRun) (createdSteps : List SupaPipelineStep)
    (hacct : ∀ x y, ext.getOrCreateAccount x y = .ok acct)
    (hasst : ∀ x y z, ext.getOrCreateAssistant x y z = .ok asst)
    (hrun : ∀ ins, ext.createPipelineRun ins = .ok runRec)
    (hsteps : ∀ ins, ext.createPipelineSteps ins = .ok createdSteps)
    (pid bid : String) :
    initializeSupabaseContext ext payload pid bid
      = .ok { account := acct, assistant := asst, pipelineRun := runRec,
              stepRecords := createdSteps } := by
  simp [initializeSupabaseContext, hacct, hasst, hrun, hsteps]

set_option maxHeartbeats 3200000 in
/-- Claim C2: for every run in which the generated prompt is produced successfully
and a failure occurs only inside the SavePromptVersion write and/or the
LogCosts flush (controlled here by the Booleans `bS`, `bL`), `runPipeline`
returns a PipelineResult with status "completed", a present (non-empty)
`generatedPrompt` and `injectionFile` and no error, while the corresponding
entries in the result's steps array are "failed" exactly for the failing
steps; the run's terminal status is unchanged by these failures. -/
theorem pipeline_auxiliary_persistence_best_effort (env : Env)
    (ext : ExternalServices) (payload : PipelineBriefingInput) (st : St)
    (fG gA : String → String → String × TokenUsage)
    (hI : String → String → String → String → String × TokenUsage)
    (acct : SupaAccount) (asst : SupaAssistant) (runRec : SupaPipelineRun)
    (createdSteps : List SupaPipelineStep) (verNum : Nat)
    (folderId sheetId eS eL : String) (bS bL : Bool) (a : AccountConfig)
    (hload : ext.loadAccountConfig payload.accountId = .ok (some a))
    (hkey : ext.validateApiKeyConfigured.valid = true)
    (hprov : ext.provider = totalProvider fG gA hI)
    (hacct : ∀ x y, ext.getOrCreateAccount x y = .ok acct)
    (hasst : ∀ x y z, ext.getOrCreateAssistant x y z = .ok asst)
    (hrun : ∀ ins, ext.createPipelineRun ins = .ok runRec)
    (hsteps : ∀ ins, ext.createPipelineSteps ins = .ok createdSteps)
    (hver : ∀ aid, ext.getNextVersionNumber aid = .ok verNum)
    (hspv : ∀ ins, ext.createPromptVersion ins
      = if bS then .error eS else .ok ())
    (hfolder : ∀ nm, ext.findOrCreateFolder nm
      = if bL then .error eL else .ok folderId)
    (hfind : ∀ nm fid, ext.findCostSpreadsheet nm fid = .ok (some sheetId))
    (happend : ∀ sid cs, ext.appendCostEntries sid cs = .ok ())
    (happendV : ∀ sid vs, ext.appendVersionEntries sid vs = .ok ())
    (hsummary : ∀ sid u, ext.updateSummary sid u = .ok ()) :
    (runPipeline env ext payload {} st).1.status = "completed"
    ∧ (runPipeline env ext payload {} st).1.generatedPrompt.isSome = true
    ∧ (runPipeline env ext payload {} st).1.injectionFile.isSome = true
    ∧ (runPipeline env ext payload {} st).1.error = none
    ∧ (runPipeline env ext payload {} st).1.steps.map (fun s => (s.name, s.status))
      = [("Load Account Config", "running"), ("Load Account Config", "completed"),
         ("Generate Prompt", "running"), ("Generate Prompt", "completed"),
         ("Determine Version", "running"), ("Determine Version", "completed"),
         ("Create Injection File", "running"), ("Create Injection File", "completed"),
         ("Save Prompt Version", "running"),
         ("Save Prompt Version", if bS then "failed" else "completed"),
         ("Log Costs", "running"),
         ("Log Costs", if bL then "failed" else "completed")] := by
  unfold runPipeline
  simp only [mergeConfig, DEFAULT_CONFIG, Option.getD_none]
  rw [initializeSupabaseContext_ok ext payload acct asst runRec createdSteps
    hacct hasst hrun hsteps _ _]
  unfold runPipelineWithCtx
  simp only [hload, hkey, logStep, stNow, if_true, hprov]
  obtain ⟨p, st2, hgen, hnum, hops, hlen, hlast, hmeta⟩ :=
    generatePromptWithIteration_spec env fG gA hI payload.briefing
      payload.accountId (some 1) _
  rw [hgen]
  simp only [hspv]
  cases bS <;> cases bL
  · rw [logCostsToSheets_ok env ext _ _ _ _ _ _ _ folderId sheetId
      (fun nm => by simpa using hfolder nm) hfind happend happendV hsummary]
    simp [stNowMs, stNow]
  · rw [logCostsToSheets_fail env ext _ _ _ _ _ _ _ eL
      (fun nm => by simpa using hfolder nm)]
    simp [stNowMs, stNow]
  · rw [logCostsToSheets_ok env ext _ _ _ _ _ _ _ folderId sheetId
      (fun nm => by simpa using hfolder nm) hfind happend happendV hsummary]
    simp [stNowMs, stNow]
  · rw [logCostsToSheets_fail env ext _ _ _ _ _ _ _ eL
      (fun nm => by simpa using hfolder nm)]
    simp [stNowMs, stNow]

/-- Witness for C2: a concrete run in which both the SavePromptVersion write
and the LogCosts flush fail still completes with its prompt. -/
theorem pipeline_auxiliary_persistence_best_effort_witness :
    (runPipeline env0 spvSheetsFailServices payload0 {} st0).1.status = "completed"
    ∧ (runPipeline env0 spvSheetsFailServices payload0 {} st0).1.generatedPrompt.isSome = true
    ∧ (runPipeline env0 spvSheetsFailServices payload0 {} st0).1.injectionFile.isSome = true
    ∧ (runPipeline env0 spvSheetsFailServices payload0 {} st0).1.error = none
    ∧ (runPipeline env0 spvSheetsFailServices payload0 {} st0).1.steps.map
        (fun s => (s.name, s.status))
      = [("Load Account Config", "running"), ("Load Account Config", "completed"),
         ("Generate Prompt", "running"), ("Generate Prompt", "completed"),
         ("Determine Version", "running"), ("Determine Version", "completed"),
         ("Create Injection File", "running"), ("Create Injection File", "completed"),
         ("Save Prompt Version", "running"), ("Save Prompt Version", "failed"),
         ("Log Costs", "running"), ("Log Costs", "failed")] :=
  pipeline_auxiliary_persistence_best_effort env0 spvSheetsFailServices payload0 st0
    (fun _ _ => ("GENERATED", stubUsage))
    (fun _ _ => ("ANALYSIS", stubUsage))
    (fun _ _ _ _ => ("IMPROVED", stubUsage))
    { id := "sb-acct" } { id := "sb-asst" } { id := "sb-run" } [] 3
    "folder-1" "sheet-1" "db down" "google down" true true
    { id := "acct-1", name := "Account One", assistants := ["asst-1"],
      createdAt := "2024-01-01" }
    rfl rfl rfl (fun _ _ => rfl) (fun _ _ _ => rfl) (fun _ => rfl) (fun _ => rfl)
    (fun _ => rfl) (fun _ => rfl) (fun _ => rfl) (fun _ _ => rfl) (fun _ _ => rfl)
    (fun _ _ => rfl) (fun _ _ => rfl)
